import Mathlib

/-!
Verification development for the school-lighting booklet scripts.

The repository consists of standalone Python scripts (`School/Bkr/st.py`,
`School/Bkr/st2.py`, `School/Bkr/st3.py`, `School/Bkr/int.py`,
`escai/file.py`, `escai/file2.py`, `escai/file_old.py`,
`School/school Papers/file.py`) that build Word documents from literal data
tables, matplotlib charts and hard-coded text.  This file shallowly embeds
the data tables, the numeric helpers (`np.interp`-based curve helpers, the
Gaussian/logistic toy curves), the regex text-scraping routine
`extract_key_values`, and the document-assembly sequences, and proves the
data-integrity and behavioural properties stated about them.

Numeric values are embedded as rationals (`ℚ`); Python's int/float
distinction, which matters only for string formatting of band bounds, is
kept via the `PyNum` type.  Real-valued library functions (`np.exp`) are
embedded over `ℝ`.
-/

namespace SchoolLighting

/-- A Python number literal: either an `int` or a `float`.  The distinction
only matters where the scripts format the value into document text
(`f"{0.59}"` prints `0.59` while `f"{59}"` prints `59`). -/
inductive PyNum where
  | i : Int → PyNum
  | f : Rat → PyNum
deriving DecidableEq, Repr

/-- Numeric value of a `PyNum`, used by all numeric invariants. -/
def PyNum.val : PyNum → ℚ
  | .i n => (n : ℚ)
  | .f q => q

/-- Python `repr`/`str` of the float literals appearing in the band tables
(all are exact decimals with at most two decimal places). -/
def pyFloatRepr (q : ℚ) : String :=
  let t : Int := q.num * 100 / q.den
  let ip := t / 100
  let fr := (t % 100).toNat
  let fs :=
    if fr == 0 then "0"
    else if fr % 10 == 0 then toString (fr / 10)
    else if fr < 10 then "0" ++ toString fr
    else toString fr
  toString ip ++ "." ++ fs

/-- Python `str` of a `PyNum` as it appears in the scripts' f-strings. -/
def PyNum.str : PyNum → String
  | .i n => toString n
  | .f q => pyFloatRepr q

/-! ### Model of `numpy.interp`

`np.interp(x, xp, fp)` performs one-dimensional piecewise-linear
interpolation through the points `(xp i, fp i)`; `xp` is assumed
increasing, values below `xp[0]` are clamped to `fp[0]` and values above
`xp[-1]` to `fp[-1]`.  It raises when `xp` and `fp` have different lengths
or are empty, which the model reflects with `Option`. -/

/-- The straight-line segment through `(x0, y0)` and `(x1, y1)`, evaluated
at `x`. -/
def interpSeg (x x0 y0 x1 y1 : ℚ) : ℚ :=
  y0 + (x - x0) * (y1 - y0) / (x1 - x0)

/-- One sample of `np.interp` over the anchor list given as pairs
`(xp i, fp i)` (assumed increasing in the first component). -/
def npInterpPts (x : ℚ) : List (ℚ × ℚ) → ℚ
  | [] => 0
  | [p] => p.2
  | p :: q :: ps =>
      if x ≤ p.1 then p.2
      else if x ≤ q.1 then interpSeg x p.1 p.2 q.1 q.2
      else npInterpPts x (q :: ps)

/-- `np.interp` on a list of sample points; `none` models the `ValueError`
numpy raises for mismatched or empty anchor arrays. -/
def npInterp (xs anchors_x anchors_y : List ℚ) : Option (List ℚ) :=
  if anchors_x.length = anchors_y.length ∧ anchors_x ≠ [] then
    some (xs.map fun x => npInterpPts x (anchors_x.zip anchors_y))
  else none

/-- `smooth_curve` from `School/Bkr/st.py` (lines 51-53): passes its anchor
arrays to `np.interp` unmodified. -/
def smooth_curve (x anchors_x anchors_y : List ℚ) : Option (List ℚ) :=
  npInterp x anchors_x anchors_y

/-- `interpolate_curve` from `School/Bkr/st2.py` (lines 125-135): if the
anchor arrays have different lengths, both are truncated to the shorter
length before calling `np.interp`. -/
def interpolate_curve (x anchors_x anchors_y : List ℚ) : Option (List ℚ) :=
  if anchors_x.length ≠ anchors_y.length then
    let m := min anchors_x.length anchors_y.length
    npInterp x (anchors_x.take m) (anchors_y.take m)
  else
    npInterp x anchors_x anchors_y

/-! ### Data tables

The literal parameter/recommendation/reference tables of the scripts.
Float literals from the sources are embedded as exact rationals via
`mkRat` (all are short decimals), wrapped in `PyNum.f` where the Python
value is a `float`. -/

/-- A record of the `PARAMS` tables of st.py / st2.py: title, x-span,
good/warn/danger bands, anchor arrays, labels, notes, references and
chart markers. -/
structure ParamRec where
  title : String
  xspan : PyNum × PyNum
  good : PyNum × PyNum
  warn : PyNum × PyNum
  danger : PyNum × PyNum
  anchors_x : List ℚ
  anchors_y : List ℚ
  x_label : String
  y_label : String
  notes : String
  refs : List (String × String)
  markers : List (ℚ × String)
deriving DecidableEq

/-- A record of the `PARAMETERS` table of `escai/file.py`. -/
structure EscaiParam where
  name : String
  span : PyNum × PyNum
  good : PyNum × PyNum
  warn : PyNum × PyNum
  danger : PyNum × PyNum
  curve : String
  curve_center : Option ℚ
  xlabel : String
  effect : String
  refs : List (String × String)
deriving DecidableEq

/-- A record of the `parameters` dict of `escai/file2.py`. -/
structure File2Param where
  name : String
  x : List ℚ
  y : List ℚ
  acceptable : PyNum × PyNum
  explanation : String
  reference : String
deriving DecidableEq

/-- An age-and-environment recommendation row (`RECS` in st.py/st2.py,
`recommendations` in escai/file.py): a heading, five free-text target
lines, a note and references. -/
structure RecRow where
  who : String
  line1 : String
  line2 : String
  line3 : String
  line4 : String
  line5 : String
  note : String
  refs : List (String × String)
deriving DecidableEq

/-- The hard-coded input path of `School/Bkr/st2.py` (line 28). -/
def INPUT_UPLOADED_DOCX : String := "/mnt/data/Schools information.docx"

/-- The `PARAMS` table of `School/Bkr/st.py` (lines 75-265). -/
def stPARAMS : List ParamRec := [
  { title := "CCT (Correlated Color Temperature, K)",
    xspan := (PyNum.i 2000, PyNum.i 7000),
    good := (PyNum.i 4000, PyNum.i 5000),
    warn := (PyNum.i 3000, PyNum.i 6500),
    danger := (PyNum.i 2000, PyNum.i 7000),
    anchors_x := [2000, 2700, 3000, 3500, 4000, 5000, 6500, 7000],
    anchors_y := [10, 18, 25, 45, 65, 70, 60, 55],
    x_label := "CCT (Kelvin)",
    y_label := "Estimated Alerting Potential (%)",
    notes := "Daytime 4000–5000 K generally supports alertness and visual comfort; short task-specific use of 6500 K may boost performance but can increase discomfort if overused.",
    refs := [("EN 12464-1 overview (indoor workplaces: illuminance, UGR, CRI)", "https://www.performanceinlighting.com/mo/en/en-12464-1"),
      ("Park et al., 2015: CCT, EEG & task performance", "https://pmc.ncbi.nlm.nih.gov/articles/PMC4668153/"),
      ("Chen et al., 2022: CCT × illuminance effects", "https://www.mdpi.com/1996-1073/15/12/4477")],
    markers := [(4000, "Typical classroom"), (5000, "Upper preferred")] },
  { title := "CRI (Color Rendering Index, Ra)",
    xspan := (PyNum.i 60, PyNum.i 100),
    good := (PyNum.i 80, PyNum.i 100),
    warn := (PyNum.i 70, PyNum.i 80),
    danger := (PyNum.i 60, PyNum.i 100),
    anchors_x := [60, 70, 75, 80, 85, 90, 95, 100],
    anchors_y := [50, 60, 70, 82, 90, 96, 99, 100],
    x_label := "CRI (Ra)",
    y_label := "Visual Color Fidelity / Recognition (%)",
    notes := "CRI ≥80 is generally recommended for classrooms; ≥90 for art/graphics where color evaluation matters.",
    refs := [("EN 12464-1 overview (Ra requirements)", "https://www.performanceinlighting.com/mo/en/en-12464-1")],
    markers := [(80, "Baseline classroom"), (90, "Art / graphics")] },
  { title := "Flicker (Percent Modulation, typical LED)",
    xspan := (PyNum.i 0, PyNum.i 50),
    good := (PyNum.i 0, PyNum.i 5),
    warn := (PyNum.i 5, PyNum.i 20),
    danger := (PyNum.i 0, PyNum.i 50),
    anchors_x := [0, 2, 5, 10, 20, 30, 40, 50],
    anchors_y := [0, 5, 10, 25, 50, 70, 85, 95],
    x_label := "Percent Flicker (%)",
    y_label := "Estimated Adverse Effect Risk (%)",
    notes := "Keep percent flicker as low as practical (<5%). Avoid low-frequency PWM; follow IEEE 1789 guidance.",
    refs := [("IEEE 1789-2015: Flicker Recommended Practice (PDF)", "https://www.lisungroup.com/wp-content/uploads/2020/02/IEEE-2015-STANDARDS-1789-Standard-Free-Download.pdf"),
      ("DOE/LightFair: Understanding IEEE Flicker Practice (PDF)", "https://www.energy.gov/sites/default/files/2022-11/ssl-miller-lehman_flicker_lightfair2015.pdf"),
      ("Miller et al., 2022 review (PDF)", "https://www.energy.gov/sites/default/files/2022-08/ssl-miller-etal-2022-LRT-flicker-review-tlm-stimulus-response.pdf")],
    markers := [(5, "Preferred max"), (20, "High risk")] },
  { title := "Glare (Unified Glare Rating, UGR)",
    xspan := (PyNum.i 10, PyNum.i 30),
    good := (PyNum.i 10, PyNum.i 19),
    warn := (PyNum.i 19, PyNum.i 22),
    danger := (PyNum.i 10, PyNum.i 30),
    anchors_x := [10, 13, 16, 19, 22, 25, 28, 30],
    anchors_y := [5, 8, 15, 30, 55, 75, 90, 95],
    x_label := "UGR",
    y_label := "Estimated Discomfort Probability (%)",
    notes := "Aim UGR <19 for classrooms; even lower (≈16–18) near screens/IBs to minimize discomfort and distraction.",
    refs := [("CIBSE Factfile: Importance of glare & calculating UGR (PDF)", "https://www.cibse.org/media/polbabib/factfile-15-the-importance-of-glare-and-calculating-ugr-jul2019.pdf"),
      ("EN 12464-1 overview (UGR contexts)", "https://www.performanceinlighting.com/mo/en/en-12464-1")],
    markers := [(19, "Classroom max"), (16, "Screen work")] },
  { title := "Melanopic EDI (melanopic lux at eye, vertical)",
    xspan := (PyNum.i 0, PyNum.i 800),
    good := (PyNum.i 250, PyNum.i 500),
    warn := (PyNum.i 100, PyNum.i 250),
    danger := (PyNum.i 0, PyNum.i 800),
    anchors_x := [0, 20, 50, 100, 250, 500, 800],
    anchors_y := [0, 5, 15, 35, 65, 80, 90],
    x_label := "Melanopic EDI (lux)",
    y_label := "Estimated Melatonin Suppression (%)",
    notes := "Provide ≥250 melanopic EDI during the day for circadian entrainment and alertness (measured vertically at ~1.2 m).",
    refs := [("Brown et al., 2022 (PLOS Biology): Consensus recommendations", "https://journals.plos.org/plosbiology/article?id=10.1371/journal.pbio.3001571"),
      ("Brown et al., 2022 (PMC)", "https://pmc.ncbi.nlm.nih.gov/articles/PMC8929548/"),
      ("WELL v2 – Circadian Lighting context (Article)", "https://resources.wellcertified.com/articles/circadian-rhythms/")],
    markers := [(250, "Daytime target (min)"), (500, "Robust daytime")] },
  { title := "Vertical Illuminance (lux at eye/face)",
    xspan := (PyNum.i 50, PyNum.i 1000),
    good := (PyNum.i 300, PyNum.i 500),
    warn := (PyNum.i 200, PyNum.i 800),
    danger := (PyNum.i 50, PyNum.i 1000),
    anchors_x := [50, 100, 150, 300, 500, 800, 1000],
    anchors_y := [(mkRat 5 100), (mkRat 12 100), (mkRat 22 100), (mkRat 4 10), (mkRat 55 100), (mkRat 65 100), (mkRat 7 10)],
    x_label := "Vertical Illuminance (lux)",
    y_label := "Circadian Stimulus (CS, unitless)",
    notes := "Aim ~300–500 lx vertical on faces/eye for daytime non-visual benefits; much lower levels are advisable in evening school events.",
    refs := [("EN 12464-1 overview; vertical/ambient aspects", "https://www.performanceinlighting.com/mo/en/en-12464-1"),
      ("WELL v2 circadian context (Article)", "https://resources.wellcertified.com/articles/circadian-rhythms/")],
    markers := [(300, "Daytime min"), (500, "Strong CS")] },
  { title := "Exposure Duration (hours of daytime light meeting target)",
    xspan := (PyNum.i 0, PyNum.i 8),
    good := (PyNum.i 2, PyNum.i 4),
    warn := (PyNum.i 1, PyNum.i 6),
    danger := (PyNum.i 0, PyNum.i 8),
    anchors_x := [0, (mkRat 5 10), 1, 2, 3, 4, 6, 8],
    anchors_y := [0, 10, 20, 40, 60, 75, 90, 95],
    x_label := "Exposure Duration (hours)",
    y_label := "Estimated Cumulative Melatonin Suppression (%)",
    notes := "Sustained daytime exposure (~2–4 h at adequate spectrum/levels) supports alertness and entrainment; avoid excessive high-intensity late-day exposure.",
    refs := [("Brown et al., 2022 (PMC): Day vs evening guidance", "https://pmc.ncbi.nlm.nih.gov/articles/PMC8929548/")],
    markers := [(2, "Effective"), (4, "Robust")] },
  { title := "Horizontal Illuminance (desk/task, lux)",
    xspan := (PyNum.i 100, PyNum.i 1500),
    good := (PyNum.i 300, PyNum.i 500),
    warn := (PyNum.i 200, PyNum.i 1000),
    danger := (PyNum.i 100, PyNum.i 1500),
    anchors_x := [100, 200, 300, 500, 750, 1000, 1500],
    anchors_y := [60, 75, 85, 95, 98, 99, 99],
    x_label := "Horizontal Illuminance (lux)",
    y_label := "Visual Task Performance (%)",
    notes := "Provide 300–500 lx at desks for general classrooms; 500–750+ lx for labs/graphics. Short-term 800–1000 lx can be used for exam focus.",
    refs := [("EN 12464-1 overview (classroom/task lx)", "https://www.performanceinlighting.com/mo/en/en-12464-1"),
      ("MDPI (2025) review referencing EN 12464-1 classroom levels", "https://www.mdpi.com/2075-5309/15/8/1233")],
    markers := [(300, "General min"), (500, "Classroom target"), (750, "Lab/graphics")] }]

/-- The `PARAMS` table of `School/Bkr/st2.py` (lines 141-285); references
to the uploaded document use the `INPUT_UPLOADED_DOCX` path constant. -/
def st2PARAMS : List ParamRec := [
  { title := "CCT (Correlated Color Temperature, K)",
    xspan := (PyNum.i 2000, PyNum.i 7000),
    good := (PyNum.i 4000, PyNum.i 5000),
    warn := (PyNum.i 3000, PyNum.i 6500),
    danger := (PyNum.i 2000, PyNum.i 7000),
    anchors_x := [2000, 2700, 3000, 3500, 4000, 5000, 6500, 7000],
    anchors_y := [8, 15, 25, 45, 65, 75, 60, 55],
    x_label := "CCT (K)",
    y_label := "Estimated Alerting Potential (%)",
    notes := "Higher CCT (bluer light) tends to increase alertness and cognitive stimulation during daytime; warmer CCT supports calmness and relaxation.",
    refs := [("Park et al., 2015 (PMC)", "https://pmc.ncbi.nlm.nih.gov/articles/PMC4668153/"),
      ("Mott et al., classroom focus literature", "https://journals.sagepub.com/doi/abs/10.1177/1477153512446099"),
      ("User uploaded study (Schools information.docx) - CCT tests at 2500K,3000K,4000K,5000K,6500K", INPUT_UPLOADED_DOCX)],
    markers := [(5000, "5000K - observed optimum"), (6500, "6500K - high alertness")] },
  { title := "CRI (Color Rendering Index, Ra)",
    xspan := (PyNum.i 60, PyNum.i 100),
    good := (PyNum.i 80, PyNum.i 100),
    warn := (PyNum.i 70, PyNum.i 80),
    danger := (PyNum.i 60, PyNum.i 100),
    anchors_x := [60, 70, 75, 80, 85, 90, 95, 100],
    anchors_y := [50, 60, 72, 82, 90, 96, 99, 100],
    x_label := "CRI (Ra)",
    y_label := "Visual Color Fidelity / Recognition (%)",
    notes := "Higher CRI improves color recognition and visual comfort; CRI is typically kept high in classrooms for accurate color tasks.",
    refs := [("EN 12464 standard (CRI guidance)", "https://www.performanceinlighting.com/mo/en/en-12464-1"),
      (INPUT_UPLOADED_DOCX, "User uploaded study: CRI mentioned in docx (high CRI noted)")],
    markers := [(80, "CRI 80 baseline"), (90, "CRI 90 art/graphics")] },
  { title := "Flicker (Percent modulation)",
    xspan := (PyNum.i 0, PyNum.i 50),
    good := (PyNum.i 0, PyNum.i 5),
    warn := (PyNum.i 5, PyNum.i 20),
    danger := (PyNum.i 0, PyNum.i 50),
    anchors_x := [0, 2, 5, 10, 20, 30, 40, 50],
    anchors_y := [0, 3, 8, 20, 45, 70, 85, 95],
    x_label := "Percent Flicker (%)",
    y_label := "Estimated Adverse Effect Risk (%)",
    notes := "Unnoticeable high-frequency flicker still can impact sensitive individuals; keep flicker as low as possible (IEEE 1789 guidance).",
    refs := [("IEEE 1789 recommended practice", "https://www.lisungroup.com/wp-content/uploads/2020/02/IEEE-2015-STANDARDS-1789-Standard-Free-Download.pdf"),
      ("User uploaded study (Schools information.docx) noted ~100Hz fluorescent flicker in many classrooms", INPUT_UPLOADED_DOCX)],
    markers := [(5, "Preferred <5%"), (20, "High risk >20%")] },
  { title := "Glare (Unified Glare Rating UGR)",
    xspan := (PyNum.i 10, PyNum.i 30),
    good := (PyNum.i 10, PyNum.i 19),
    warn := (PyNum.i 19, PyNum.i 22),
    danger := (PyNum.i 10, PyNum.i 30),
    anchors_x := [10, 13, 16, 19, 22, 25, 28, 30],
    anchors_y := [5, 8, 15, 30, 55, 80, 92, 96],
    x_label := "UGR",
    y_label := "Estimated Discomfort Probability (%)",
    notes := "High glare leads to eye strain and distraction; control luminaire placement and reflections to keep UGR low in classrooms.",
    refs := [("CIBSE guidance on UGR", "https://www.cibse.org/"),
      (INPUT_UPLOADED_DOCX, "User file: glare noted as a negative factor")],
    markers := [(19, "UGR 19 classroom max")] },
  { title := "Uniformity (Emin / Eavg)",
    xspan := (PyNum.f (mkRat 1 10), PyNum.f (mkRat 10 10)),
    good := (PyNum.f (mkRat 6 10), PyNum.f (mkRat 10 10)),
    warn := (PyNum.f (mkRat 4 10), PyNum.f (mkRat 59 100)),
    danger := (PyNum.f (mkRat 1 10), PyNum.f (mkRat 10 10)),
    anchors_x := [(mkRat 1 10), (mkRat 2 10), (mkRat 3 10), (mkRat 45 100), (mkRat 6 10), (mkRat 75 100), (mkRat 9 10), (mkRat 10 10)],
    anchors_y := [40, 55, 70, 82, 92, 96, 98, 99],
    x_label := "Uniformity (Emin / Eavg)",
    y_label := "Task Performance Index (%)",
    notes := "Higher uniformity reduces local visual contrast and improves even task performance across the room.",
    refs := [("EN 12464-1 uniformity recommendations", "https://www.performanceinlighting.com/mo/en/en-12464-1")],
    markers := [((mkRat 6 10), "Recommended ≥0.6")] },
  { title := "Melanopic EDI (melanopic lux at eye)",
    xspan := (PyNum.i 0, PyNum.i 800),
    good := (PyNum.i 250, PyNum.i 500),
    warn := (PyNum.i 100, PyNum.i 250),
    danger := (PyNum.i 0, PyNum.i 800),
    anchors_x := [0, 20, 50, 100, 250, 500, 800],
    anchors_y := [0, 5, 15, 35, 65, 80, 90],
    x_label := "Melanopic EDI (lux)",
    y_label := "Estimated Melatonin Suppression (%)",
    notes := "Melanopic EDI of ~250 lux or higher in daytime supports circadian entrainment and alertness (Brown et al., 2022 consensus).",
    refs := [("Brown et al., 2022 consensus (PLOS Biology)", "https://journals.plos.org/plosbiology/article?id=10.1371/journal.pbio.3001571"),
      (INPUT_UPLOADED_DOCX, "User file: referenced melanopic / circadian impacts in literature review")],
    markers := [(250, "250 mEDI recommended min"), (500, "Strong daytime level")] },
  { title := "Vertical Illuminance (lux at eye/face)",
    xspan := (PyNum.i 50, PyNum.i 1000),
    good := (PyNum.i 300, PyNum.i 500),
    warn := (PyNum.i 200, PyNum.i 800),
    danger := (PyNum.i 50, PyNum.i 1000),
    anchors_x := [50, 100, 150, 300, 500, 800, 1000],
    anchors_y := [(mkRat 5 100), (mkRat 12 100), (mkRat 22 100), (mkRat 4 10), (mkRat 55 100), (mkRat 65 100), (mkRat 68 100)],
    x_label := "Vertical Illuminance (lux)",
    y_label := "Circadian Stimulus (CS, approx.)",
    notes := "Vertical lux is crucial for non-visual responses; measure at eye/face level for circadian effect estimates.",
    refs := [("EN 12464-1 and WELL references on vertical illumination", "https://www.performanceinlighting.com/mo/en/en-12464-1"),
      (INPUT_UPLOADED_DOCX, "User file: some studies included vertical illuminance ranges (350-1000) in literature")],
    markers := [(300, "300 lux target"), (500, "500 lux strong")] },
  { title := "Exposure Duration (hours of daytime light at target levels)",
    xspan := (PyNum.i 0, PyNum.i 8),
    good := (PyNum.i 2, PyNum.i 4),
    warn := (PyNum.i 1, PyNum.i 6),
    danger := (PyNum.i 0, PyNum.i 8),
    anchors_x := [0, (mkRat 5 10), 1, 2, 3, 4, 6, 8],
    anchors_y := [0, 10, 20, 40, 60, 75, 90, 95],
    x_label := "Exposure Duration (hours)",
    y_label := "Estimated Cumulative Melatonin Suppression (%)",
    notes := "Sustained daytime exposure (~2–4 h at adequate EDI) supports entrainment. Short or irregular exposure is less effective.",
    refs := [("Brown et al., 2022 consensus; circadian exposure guidance", "https://pmc.ncbi.nlm.nih.gov/articles/PMC8929548/"),
      (INPUT_UPLOADED_DOCX, "User file: exposure duration context in literature review")],
    markers := [(2, "2 h effective"), (4, "4 h robust")] },
  { title := "Horizontal Illuminance (desk/task lux)",
    xspan := (PyNum.i 100, PyNum.i 1500),
    good := (PyNum.i 300, PyNum.i 500),
    warn := (PyNum.i 200, PyNum.i 1000),
    danger := (PyNum.i 100, PyNum.i 1500),
    anchors_x := [100, 200, 300, 500, 750, 1000, 1500],
    anchors_y := [60, 75, 85, 95, 98, 99, 99],
    x_label := "Horizontal Illuminance (lux)",
    y_label := "Visual Task Performance (%)",
    notes := "300–500 lx on desk level is typical for classrooms; exams/labs may use short-term higher levels (≥750 lx).",
    refs := [("EN 12464-1 classroom illuminance (desk level)", "https://www.performanceinlighting.com/mo/en/en-12464-1"),
      (INPUT_UPLOADED_DOCX, "User file: tested 275, 475, 613 lux and reported alertness increases")],
    markers := [(300, "300 lx baseline"), (500, "500 lx target"), (1000, "1000 lx focus/exam")] }]

/-- The `PARAMETERS` table of `escai/file.py` (lines 73-221). -/
def escaiPARAMETERS : List EscaiParam := [
  { name := "CCT (Correlated Color Temperature, K)",
    span := (PyNum.i 2000, PyNum.i 8000),
    good := (PyNum.i 4000, PyNum.i 5000),
    warn := (PyNum.i 3000, PyNum.i 6500),
    danger := (PyNum.i 2000, PyNum.i 8000),
    curve := "gaussian",
    curve_center := some (mkRat 54 100),
    xlabel := "CCT (K)",
    effect := "Balanced 4000–5000 K supports alertness and visual comfort for classrooms. Too warm (<3000 K) can promote sleepiness; too cool (>6500 K) may increase discomfort/glare. Short, task-specific boosts at 6500 K/1000 lx can improve reading fluency during tests.",
    refs := [("EN 12464-1: Indoor work lighting (general targets)", "https://www.performanceinlighting.com/mo/en/en-12464-1"),
      ("Mott et al., 2012: High CCT/illuminance improved reading fluency", "https://journals.sagepub.com/doi/abs/10.1177/1477153512446099"),
      ("Sleegers et al., 2013: Dynamic lighting and concentration", "https://journals.sagepub.com/doi/abs/10.1177/1477153512446099"),
      ("Park et al., 2015: CCT, EEG & task performance", "https://pmc.ncbi.nlm.nih.gov/articles/PMC4668153/"),
      ("Chen et al., 2022: CCT × illuminance responses", "https://www.mdpi.com/1996-1073/15/12/4477")] },
  { name := "CRI (Color Rendering Index, Ra)",
    span := (PyNum.i 50, PyNum.i 100),
    good := (PyNum.i 80, PyNum.i 100),
    warn := (PyNum.i 70, PyNum.i 80),
    danger := (PyNum.i 50, PyNum.i 100),
    curve := "gaussian",
    curve_center := some (mkRat 95 100),
    xlabel := "CRI (Ra)",
    effect := "CRI ≥80 supports natural color appearance and reduces visual fatigue. Art/graphics benefit from CRI ≥90. Very low CRI (<70) hampers color discrimination and comfort.",
    refs := [("EN 12464-1: Ra ≥80 typical; ≥90 for demanding color tasks", "https://www.performanceinlighting.com/mo/en/en-12464-1")] },
  { name := "Flicker (% modulation at typical LED driving frequencies)",
    span := (PyNum.i 0, PyNum.i 50),
    good := (PyNum.i 0, PyNum.i 5),
    warn := (PyNum.i 5, PyNum.i 20),
    danger := (PyNum.i 0, PyNum.i 50),
    curve := "descending",
    curve_center := none,
    xlabel := "Percent Flicker (%)",
    effect := "Keep percent flicker <5% to minimize headaches, eyestrain, and distraction. Between 5–20% some occupants are affected; >20% increases adverse effects. Use high-frequency drivers and avoid PWM at low frequencies per IEEE 1789.",
    refs := [("IEEE 1789-2015: Flicker recommended practice", "https://www.lisungroup.com/wp-content/uploads/2020/02/IEEE-2015-STANDARDS-1789-Standard-Free-Download.pdf"),
      ("DOE/LightFair deck: factors increasing risk", "https://www.energy.gov/sites/default/files/2022-11/ssl-miller-lehman_flicker_lightfair2015.pdf"),
      ("DIAL explainer on IEEE 1789 terms", "https://www.dial.de/en-GB/articles/ieee-1789-a-new-standard-for-evaluating-flickering-leds")] },
  { name := "Glare (UGR)",
    span := (PyNum.i 10, PyNum.i 30),
    good := (PyNum.i 10, PyNum.i 19),
    warn := (PyNum.i 19, PyNum.i 22),
    danger := (PyNum.i 10, PyNum.i 30),
    curve := "descending",
    curve_center := none,
    xlabel := "UGR",
    effect := "UGR <19 recommended for classrooms to avoid discomfort and maintain performance. Aim lower (≈16–18) near screens/interactive boards.",
    refs := [("EN 12464-1: UGR targets for tasks", "https://www.performanceinlighting.com/mo/en/en-12464-1"),
      ("CIBSE Factfile: importance of UGR", "https://www.cibse.org/media/polbabib/factfile-15-the-importance-of-glare-and-calculating-ugr-jul2019.pdf")] },
  { name := "Melanopic EDI (lux at eye, vertical)",
    span := (PyNum.i 0, PyNum.i 800),
    good := (PyNum.i 250, PyNum.i 500),
    warn := (PyNum.i 100, PyNum.i 250),
    danger := (PyNum.i 0, PyNum.i 800),
    curve := "gaussian",
    curve_center := some (mkRat 45 100),
    xlabel := "Melanopic EDI (lux)",
    effect := "Daytime ≥250 melanopic EDI at eye supports circadian entrainment and alertness (measure at ≈1.2 m seated, vertical). Evening levels should be much lower.",
    refs := [("Global consensus (Brown et al., 2022): daytime ≥250 mEDI", "https://journals.plos.org/plosbiology/article?id=10.1371/journal.pbio.3001571"),
      ("PMC version", "https://pmc.ncbi.nlm.nih.gov/articles/PMC8929548/"),
      ("WELL v2 L03 circadian targets (EML/mEDI)", "https://standard.wellcertified.com/light/circadian-lighting-design")] },
  { name := "Vertical Illuminance (lux at eye/face)",
    span := (PyNum.i 50, PyNum.i 1000),
    good := (PyNum.i 300, PyNum.i 500),
    warn := (PyNum.i 200, PyNum.i 800),
    danger := (PyNum.i 50, PyNum.i 1000),
    curve := "gaussian",
    curve_center := some (mkRat 45 100),
    xlabel := "Vertical Illuminance (lux)",
    effect := "Adequate vertical illuminance improves visibility of faces/boards and supports non-visual effects. Keep roughly 300–500 lx on faces in learning spaces; avoid very low or very high values.",
    refs := [("EN 12464-1: room surface/vertical illuminance guidance", "https://www.performanceinlighting.com/mo/en/en-12464-1"),
      ("CIBSE LG5/education guidance (context)", "https://www.cibse.org/knowledge-research/knowledge-portal/lg7-lighting-for-offices-2023")] },
  { name := "Exposure Duration (hours of daytime light meeting targets)",
    span := (PyNum.i 0, PyNum.i 12),
    good := (PyNum.i 3, PyNum.i 6),
    warn := (PyNum.i 1, PyNum.i 8),
    danger := (PyNum.i 0, PyNum.i 12),
    curve := "gaussian",
    curve_center := some (mkRat 45 100),
    xlabel := "Hours per school day",
    effect := "Sustained exposure (≈3–6 h) to target illuminance/spectrum during the school day supports alertness and entrainment; very little or excessive high-intensity exposure is less beneficial.",
    refs := [("Consensus guidance on daytime vs evening exposure (Brown et al., 2022)", "https://pmc.ncbi.nlm.nih.gov/articles/PMC8929548/")] },
  { name := "Horizontal Illuminance (desk, lux)",
    span := (PyNum.i 100, PyNum.i 1500),
    good := (PyNum.i 300, PyNum.i 500),
    warn := (PyNum.i 200, PyNum.i 1000),
    danger := (PyNum.i 100, PyNum.i 1500),
    curve := "gaussian",
    curve_center := some (mkRat 4 10),
    xlabel := "Horizontal Illuminance (lux)",
    effect := "Provide 300–500 lx at desks for most classroom tasks; 500–750+ lx for labs/graphics. Higher levels (≈1000 lx) may be used short-term for exams/focus sessions.",
    refs := [("EN 12464-1: classroom/task illuminance", "https://www.performanceinlighting.com/mo/en/en-12464-1"),
      ("Mott/Sleegers: high-lx focus settings evidence", "https://journals.sagepub.com/doi/abs/10.1177/1477153512446099")] }]

/-- The `parameters` table of `escai/file2.py` (lines 16-73), in dict
insertion order. -/
def file2parameters : List File2Param := [
  { name := "CCT (Color Temperature)",
    x := [2700, 3000, 3500, 4000, 5000, 6500],
    y := [3, 4, 6, 8, 7, 5],
    acceptable := (PyNum.i 3500, PyNum.i 5000),
    explanation := "Cooler CCT (4000–5000K) improves alertness and concentration in classrooms, while too warm (<3000K) reduces focus. Very high (>6500K) can cause visual discomfort.",
    reference := "CIE S 026/E:2018; Figueiro & Rea 2010, Lighting Research & Technology" },
  { name := "CRI (Color Rendering Index)",
    x := [70, 75, 80, 85, 90, 95, 100],
    y := [3, 4, 6, 7, 9, 10, 10],
    acceptable := (PyNum.i 80, PyNum.i 100),
    explanation := "Higher CRI (>90) ensures natural color perception, reduces eye strain, and supports accurate visual tasks in classrooms.",
    reference := "IES Lighting Handbook, 10th Edition; CIE 13.3-1995" },
  { name := "Flicker",
    x := [0, 5, 10, 20, 30, 50, 100],
    y := [10, 9, 7, 5, 3, 2, 1],
    acceptable := (PyNum.i 0, PyNum.i 10),
    explanation := "High flicker (>20%) is linked to headaches, eyestrain, and reduced reading performance in children.",
    reference := "IEEE Std 1789-2015; Wilkins et al., Brain (1989)" },
  { name := "Glare (UGR)",
    x := [10, 13, 16, 19, 22, 25, 28],
    y := [10, 9, 7, 5, 3, 2, 1],
    acceptable := (PyNum.i 16, PyNum.i 19),
    explanation := "UGR above 22 causes visual discomfort and reduced attention. UGR <19 is recommended for classrooms.",
    reference := "EN 12464-1:2021 Lighting of Workplaces" },
  { name := "Melanopic EDI",
    x := [100, 150, 200, 250, 300, 350, 400],
    y := [3, 5, 7, 9, 10, 9, 7],
    acceptable := (PyNum.i 200, PyNum.i 350),
    explanation := "Melanopic Equivalent Daylight Illuminance (EDI) ≥ 200 lux in morning hours supports circadian entrainment and improves alertness.",
    reference := "CIE S 026/E:2018; Lucas et al., NPJ Biological Rhythms (2014)" },
  { name := "Vertical Illuminance",
    x := [100, 150, 200, 300, 500, 1000],
    y := [2, 5, 7, 9, 10, 8],
    acceptable := (PyNum.i 300, PyNum.i 500),
    explanation := "Vertical illuminance at the eye ensures proper non-visual stimulation. 300–500 lux is ideal in classrooms.",
    reference := "WELL Building Standard v2; CIE S 026/E:2018" },
  { name := "Exposure Duration",
    x := [(mkRat 5 10), 1, 2, 3, 4, 6, 8],
    y := [2, 4, 7, 9, 10, 8, 6],
    acceptable := (PyNum.i 2, PyNum.i 4),
    explanation := "2–4 hours of exposure to proper lighting is beneficial for children’s circadian rhythm and sustained focus.",
    reference := "Gooley et al., J. Clin. Endocrinol. Metab. (2011); CIE 2018" },
  { name := "Lux (Horizontal Illuminance)",
    x := [100, 200, 300, 500, 750, 1000],
    y := [2, 4, 6, 9, 10, 9],
    acceptable := (PyNum.i 300, PyNum.i 500),
    explanation := "300–500 lux at desk level improves reading speed, comprehension, and reduces eye strain. Too low (<200) impairs visual performance.",
    reference := "EN 12464-1:2021; IESNA Handbook" }]

/-- The `RECS` table of `School/Bkr/st.py` (lines 295-333). -/
def stRECS : List RecRow := [
  { who := "Kindergarten (3–5) – classroom",
    line1 := "Horizontal lx: 300–500",
    line2 := "UGR: <19",
    line3 := "CRI: ≥80",
    line4 := "Melanopic EDI (day): ≥250",
    line5 := "CCT: 3500–4000 K",
    note := "Softer CCT reduces over-arousal; keep flicker <5%; vertical ~300–400 lx for faces.",
    refs := [("EN 12464-1 overview", "https://www.performanceinlighting.com/mo/en/en-12464-1"),
      ("Brown et al., 2022 (PMC)", "https://pmc.ncbi.nlm.nih.gov/articles/PMC8929548/")] },
  { who := "Primary (6–11) – classroom",
    line1 := "Horizontal lx: 300–500",
    line2 := "UGR: <19",
    line3 := "CRI: ≥80",
    line4 := "Melanopic EDI (day): ≥250–300",
    line5 := "CCT: 4000–5000 K",
    note := "Balanced spectrum/daylight; flicker <5%; vertical ~300–500 lx faces/boards.",
    refs := [("EN 12464-1 overview", "https://www.performanceinlighting.com/mo/en/en-12464-1"),
      ("WELL circadian article", "https://resources.wellcertified.com/articles/circadian-rhythms/")] },
  { who := "Secondary (12–18) – classroom",
    line1 := "Horizontal lx: 300–500",
    line2 := "UGR: <19 (≤16 near screens)",
    line3 := "CRI: ≥80 (≥90 for art)",
    line4 := "Melanopic EDI (day): ≥250–300",
    line5 := "CCT: 4000–5000 K",
    note := "Lower UGR near screens; short high-CCT/high-lx sessions can support exam focus.",
    refs := [("EN 12464-1 overview", "https://www.performanceinlighting.com/mo/en/en-12464-1")] },
  { who := "Exam/Focus (short sessions, all ages)",
    line1 := "Horizontal lx: 500–1000",
    line2 := "UGR: <19",
    line3 := "CRI: ≥80",
    line4 := "Melanopic EDI (day): ≥300–400",
    line5 := "CCT: 5000–6500 K",
    note := "Short deployments to boost alertness; avoid all-day cold light.",
    refs := [("Park et al., 2015", "https://pmc.ncbi.nlm.nih.gov/articles/PMC4668153/"),
      ("Chen et al., 2022", "https://www.mdpi.com/1996-1073/15/12/4477")] },
  { who := "Art/Graphics room",
    line1 := "Horizontal lx: 500–750",
    line2 := "UGR: <19",
    line3 := "CRI: ≥90",
    line4 := "Melanopic EDI (day): ≥250",
    line5 := "CCT: 4000–5000 K",
    note := "High CRI for color judgment; strong vertical lighting to evaluate work.",
    refs := [("EN 12464-1 overview", "https://www.performanceinlighting.com/mo/en/en-12464-1")] },
  { who := "Science lab",
    line1 := "Horizontal lx: 500–750",
    line2 := "UGR: <19 (≤16 preferred)",
    line3 := "CRI: ≥80",
    line4 := "Melanopic EDI (day): ≥250–300",
    line5 := "CCT: 4000–5000 K",
    note := "Higher task illumination and glare control for practical work; minimize flicker.",
    refs := [("EN 12464-1 overview", "https://www.performanceinlighting.com/mo/en/en-12464-1")] },
  { who := "Corridors / circulation",
    line1 := "Horizontal lx: 100–200",
    line2 := "UGR: <22",
    line3 := "CRI: ≥80",
    line4 := "Melanopic EDI: —",
    line5 := "CCT: 3000–4000 K",
    note := "Comfortable navigation; avoid glare and harsh contrasts.",
    refs := [("EN 12464-1 overview", "https://www.performanceinlighting.com/mo/en/en-12464-1")] }]

/-- The `RECS` table of `School/Bkr/st2.py` (lines 290-355). -/
def st2RECS : List RecRow := [
  { who := "Kindergarten classrooms (ages 4–6)",
    line1 := "Horizontal Illuminance: 300–500 lx",
    line2 := "CRI ≥ 80",
    line3 := "UGR ≤ 19",
    line4 := "Melanopic EDI ~200–300 lx",
    line5 := "CCT 3500–4000 K",
    note := "Children benefit from moderate light levels, good color rendering, and warm-neutral CCT that supports calmness.",
    refs := [("EN 12464-1 indoor lighting", "https://www.performanceinlighting.com/mo/en/en-12464-1"),
      ("Brown et al., 2022 consensus", "https://journals.plos.org/plosbiology/article?id=10.1371/journal.pbio.3001571")] },
  { who := "Primary school classrooms (ages 7–12)",
    line1 := "Horizontal Illuminance: 300–500 lx (up to 750 lx during reading/writing)",
    line2 := "CRI ≥ 80–85",
    line3 := "UGR ≤ 19",
    line4 := "Melanopic EDI ~250–400 lx",
    line5 := "CCT 4000–5000 K",
    note := "Slightly higher CCT supports alertness; ensure vertical illuminance at eye is sufficient for circadian entrainment.",
    refs := [("EN 12464-1", "https://www.performanceinlighting.com/mo/en/en-12464-1"),
      ("Park et al., 2015", "https://pmc.ncbi.nlm.nih.gov/articles/PMC4668153/")] },
  { who := "Secondary schools / adolescents (ages 13–18)",
    line1 := "Horizontal Illuminance: 500 lx baseline, up to 1000 lx for detailed tasks",
    line2 := "CRI ≥ 85",
    line3 := "UGR ≤ 19",
    line4 := "Melanopic EDI ≥ 300 lx (ideally 400–500 lx daytime)",
    line5 := "CCT 5000–6500 K",
    note := "Teenagers need strong circadian signals due to delayed sleep phase; cooler CCT supports morning alertness.",
    refs := [("Brown et al., 2022 consensus", "https://journals.plos.org/plosbiology/article?id=10.1371/journal.pbio.3001571"),
      ("Mott et al., dynamic lighting in classrooms", "https://journals.sagepub.com/doi/abs/10.1177/1477153512446099")] },
  { who := "Laboratories / exam halls",
    line1 := "Horizontal Illuminance: 750–1000 lx",
    line2 := "CRI ≥ 90",
    line3 := "UGR ≤ 19",
    line4 := "Melanopic EDI ≥ 400 lx",
    line5 := "CCT 5000–6500 K",
    note := "High-intensity, cool light enhances alertness and task precision; suitable for exams and labs.",
    refs := [("EN 12464-1", "https://www.performanceinlighting.com/mo/en/en-12464-1"),
      ("WELL Building Standard", "https://resources.wellcertified.com/articles/circadian-rhythms/")] },
  { who := "Playgrounds / common areas",
    line1 := "Horizontal Illuminance: 100–200 lx",
    line2 := "CRI ≥ 70",
    line3 := "UGR control less critical outdoors",
    line4 := "Melanopic EDI variable, natural daylight preferred",
    line5 := "CCT variable, daylight spectrum preferred",
    note := "Outdoor spaces rely on natural daylight; artificial lighting should prioritize safety and visibility rather than circadian control.",
    refs := [("CIBSE lighting guide", "https://www.cibse.org/")] }]

/-- The `recommendations` table of `escai/file.py` (lines 287-328). -/
def escaiRecommendations : List RecRow := [
  { who := "Kindergarten (3–5) – classroom",
    line1 := "300–500 lx",
    line2 := "<19",
    line3 := "≥80",
    line4 := "≥250 mEDI (daytime)",
    line5 := "3500–4000 K",
    note := "Softer CCT to reduce arousal; keep flicker <5%; good vertical light for faces (≈300–400 lx).",
    refs := [("EN 12464-1: classroom lx/UGR/CRI", "https://www.performanceinlighting.com/mo/en/en-12464-1"),
      ("Brown et al., 2022 mEDI ≥250", "https://pmc.ncbi.nlm.nih.gov/articles/PMC8929548/")] },
  { who := "Primary (6–11) – classroom",
    line1 := "300–500 lx",
    line2 := "<19",
    line3 := "≥80",
    line4 := "≥250–300 mEDI",
    line5 := "4000–5000 K",
    note := "Balanced spectrum/daylight; flicker <5%; vertical ≈300–500 lx on faces/boards.",
    refs := [("EN 12464-1", "https://www.performanceinlighting.com/mo/en/en-12464-1"),
      ("WELL v2 L03 circadian targets", "https://standard.wellcertified.com/light/circadian-lighting-design")] },
  { who := "Secondary (12–18) – classroom",
    line1 := "300–500 lx",
    line2 := "<19 (≤16 near screens)",
    line3 := "≥80 (≥90 for art)",
    line4 := "≥250–300 mEDI",
    line5 := "4000–5000 K",
    note := "Lower UGR near screens; can use short high-CCT/1000 lx sessions for tests.",
    refs := [("EN 12464-1", "https://www.performanceinlighting.com/mo/en/en-12464-1"),
      ("Mott/Sleegers focus setting", "https://journals.sagepub.com/doi/abs/10.1177/1477153512446099")] },
  { who := "Exam/Focus sessions (all ages)",
    line1 := "500–1000 lx (short-term)",
    line2 := "<19",
    line3 := "≥80",
    line4 := "≥250–400 mEDI",
    line5 := "5000–6500 K",
    note := "Short deployments to boost alertness/reading fluency; avoid all-day cold light.",
    refs := [("Mott et al., 2012", "https://journals.sagepub.com/doi/abs/10.1177/1477153512446099"),
      ("Sleegers et al., 2013", "https://journals.sagepub.com/doi/abs/10.1177/1477153512446099")] },
  { who := "Art/Graphics room",
    line1 := "500–750 lx",
    line2 := "<19",
    line3 := "≥90",
    line4 := "≥250 mEDI",
    line5 := "4000–5000 K",
    note := "High CRI for accurate color tasks; good vertical light to evaluate work.",
    refs := [("EN 12464-1 (color-critical tasks)", "https://www.performanceinlighting.com/mo/en/en-12464-1")] },
  { who := "Science lab",
    line1 := "500–750 lx",
    line2 := "<19 (≤16 preferred)",
    line3 := "≥80",
    line4 := "≥250–300 mEDI",
    line5 := "4000–5000 K",
    note := "Higher task lx and glare control for practical work; minimize flicker.",
    refs := [("EN 12464-1 (laboratory tasks)", "https://www.performanceinlighting.com/mo/en/en-12464-1")] },
  { who := "Corridors / circulation",
    line1 := "100–200 lx",
    line2 := "<22",
    line3 := "≥80",
    line4 := "—",
    line5 := "3000–4000 K",
    note := "Comfortable navigation; avoid excessive brightness/glare.",
    refs := [("EN 12464-1", "https://www.performanceinlighting.com/mo/en/en-12464-1")] }]

/-- The `ALL_REFS` master list of `School/Bkr/st.py` (lines 414-426). -/
def stALL_REFS : List (String × String) := [
  ("EN 12464-1 overview (indoor workplaces: illuminance, UGR, CRI)", "https://www.performanceinlighting.com/mo/en/en-12464-1"),
  ("CIBSE Factfile: Importance of glare & calculating UGR (PDF)", "https://www.cibse.org/media/polbabib/factfile-15-the-importance-of-glare-and-calculating-ugr-jul2019.pdf"),
  ("Brown et al., 2022 (PLOS Biology): Consensus recommendations", "https://journals.plos.org/plosbiology/article?id=10.1371/journal.pbio.3001571"),
  ("Brown et al., 2022 (PMC mirror)", "https://pmc.ncbi.nlm.nih.gov/articles/PMC8929548/"),
  ("WELL v2 Circadian context article (IWBI)", "https://resources.wellcertified.com/articles/circadian-rhythms/"),
  ("IEEE 1789-2015 (PDF copy)", "https://www.lisungroup.com/wp-content/uploads/2020/02/IEEE-2015-STANDARDS-1789-Standard-Free-Download.pdf"),
  ("DOE/LightFair deck on IEEE 1789 (PDF)", "https://www.energy.gov/sites/default/files/2022-11/ssl-miller-lehman_flicker_lightfair2015.pdf"),
  ("Miller et al., 2022 flicker review (PDF)", "https://www.energy.gov/sites/default/files/2022-08/ssl-miller-etal-2022-LRT-flicker-review-tlm-stimulus-response.pdf"),
  ("Park et al., 2015: CCT, EEG & task performance (PMC)", "https://pmc.ncbi.nlm.nih.gov/articles/PMC4668153/"),
  ("Chen et al., 2022: CCT × illuminance (MDPI)", "https://www.mdpi.com/1996-1073/15/12/4477"),
  ("MDPI 2025 review referencing EN 12464-1 classroom levels", "https://www.mdpi.com/2075-5309/15/8/1233")]

/-- The `ALL_REFS` master list of `escai/file.py` (lines 353-364). -/
def escaiALL_REFS : List (String × String) := [
  ("EN 12464-1: Lighting of work places — Indoor", "https://www.performanceinlighting.com/mo/en/en-12464-1"),
  ("CIBSE Factfile: Importance of UGR", "https://www.cibse.org/media/polbabib/factfile-15-the-importance-of-glare-and-calculating-ugr-jul2019.pdf"),
  ("WELL v2 L03: Circadian Lighting Design", "https://standard.wellcertified.com/light/circadian-lighting-design"),
  ("Brown et al., 2022 (PLOS Biology): Global consensus on melanopic EDI", "https://journals.plos.org/plosbiology/article?id=10.1371/journal.pbio.3001571"),
  ("PMC mirror for Brown et al., 2022", "https://pmc.ncbi.nlm.nih.gov/articles/PMC8929548/"),
  ("IEEE 1789-2015: Flicker Recommended Practice", "https://www.lisungroup.com/wp-content/uploads/2020/02/IEEE-2015-STANDARDS-1789-Standard-Free-Download.pdf"),
  ("DOE/LightFair deck: Flicker risk factors", "https://www.energy.gov/sites/default/files/2022-11/ssl-miller-lehman_flicker_lightfair2015.pdf"),
  ("Mott et al., 2012 / Sleegers et al., 2013: Focus settings in classrooms", "https://journals.sagepub.com/doi/abs/10.1177/1477153512446099"),
  ("Park et al., 2015: CCT, EEG & task performance", "https://pmc.ncbi.nlm.nih.gov/articles/PMC4668153/"),
  ("Chen et al., 2022: CCT × Illuminance responses", "https://www.mdpi.com/1996-1073/15/12/4477")]

/-- The `master_refs` dict of `School/Bkr/st2.py` (lines 501-508), in
insertion order. -/
def st2master_refs : List (String × String) := [
  ("EN 12464-1 overview (indoor workplaces)", "https://www.performanceinlighting.com/mo/en/en-12464-1"),
  ("Brown et al., 2022 PLOS Biology (melanopic consensus)", "https://journals.plos.org/plosbiology/article?id=10.1371/journal.pbio.3001571"),
  ("WELL resource: Circadian context", "https://resources.wellcertified.com/articles/circadian-rhythms/"),
  ("IEEE 1789 (flicker)", "https://www.lisungroup.com/wp-content/uploads/2020/02/IEEE-2015-STANDARDS-1789-Standard-Free-Download.pdf"),
  ("Park et al., 2015 (CCT & task performance PMC)", "https://pmc.ncbi.nlm.nih.gov/articles/PMC4668153/"),
  ("User uploaded file (Schools information.docx)", INPUT_UPLOADED_DOCX)]

/-- The `filename` fields of the `chapters` table of
`School/Bkr/st3.py` (lines 101-433); each entry produces one `doc.save`
via `write_chapter`.  (The prose content of the chapters is not needed by
any claim and is not embedded.) -/
def st3ChapterFilenames : List String := [
  "01_CCT.docx",
  "02_CRI.docx",
  "03_Flicker.docx",
  "04_Glare_UGR.docx",
  "05_Horizontal_Illuminance.docx",
  "06_Vertical_Illuminance.docx",
  "07_Melanopic_EDI.docx",
  "08_Uniformity.docx",
  "09_Exposure_Duration.docx"]

/-- The keys of the `parameters` dict of
`School/school Papers/file.py` (lines 37-61), in insertion order; one PNG
per key is written to `/mnt/data/`. -/
def papersParamNames : List String := [
  "CCT (Color Temperature, K)",
  "CRI (Color Rendering Index)",
  "Flicker (%)",
  "Glare (UGR)",
  "Melanopic EDI (lux)",
  "Vertical Illuminance (lux)",
  "Exposure Duration (hours)",
  "Horizontal Illuminance (Lux)"]


/-! ### Invariant predicates over the tables -/

/-- Boolean test that a list of rationals is strictly ascending. -/
def strictlyAscending : List ℚ → Bool
  | [] => true
  | [_] => true
  | a :: b :: l => decide (a < b) && strictlyAscending (b :: l)

/-- The nesting invariant the band-drawing helpers (`add_bands` in
st.py/st2.py, `band_plot` in escai/file.py) document for their inputs:
the good band lies inside the warn band, the warn band inside the
danger band, and the danger band coincides with the record's x-span. -/
def bandsNestedOk (good warn danger xspan : PyNum × PyNum) : Bool :=
  decide (warn.1.val ≤ good.1.val) && decide (good.2.val ≤ warn.2.val) &&
  decide (danger.1.val ≤ warn.1.val) && decide (warn.2.val ≤ danger.2.val) &&
  (danger == xspan)

/-- Syntactic validity of an HTTP(S) URL: an `http://` or `https://`
scheme followed by a nonempty remainder, with no space characters. -/
def isHttpUrl (u : String) : Bool :=
  let cs := u.toList
  (( List.isPrefixOf "http://".toList cs && 7 < cs.length) ||
   ( List.isPrefixOf "https://".toList cs && 8 < cs.length)) &&
  cs.all fun c => c != ' '

/-- Every (title, URL) citation pair appearing in the scripts' reference
lists: per-parameter refs, recommendation refs and master reference lists
of st.py, st2.py and escai/file.py (the other scripts have no
(title, URL) pairs). -/
def allCitationPairs : List (String × String) :=
  (stPARAMS.map (·.refs)).flatten ++ (stRECS.map (·.refs)).flatten ++ stALL_REFS ++
  (st2PARAMS.map (·.refs)).flatten ++ (st2RECS.map (·.refs)).flatten ++ st2master_refs ++
  (escaiPARAMETERS.map (·.refs)).flatten ++ (escaiRecommendations.map (·.refs)).flatten ++
  escaiALL_REFS

/-! ### Toy curve generators of `escai/file.py`

`gaussian_peak` and `descending_curve` use `np.exp` and are embedded over
`ℝ`; inputs are the rational sample arrays.  `x.max()`/`x.min()` raise on
an empty numpy array, which the embedding reflects with `Option`. -/

/-- The `1e-9` regularisation constant in the normalisation denominators
of `gaussian_peak` and `descending_curve`. -/
noncomputable def epsNorm : ℝ := 1 / 1000000000

/-- `gaussian_peak` from `escai/file.py` (lines 25-30): normalises `x` to
`[0, 1]` by `(x - min) / (max - min + 1e-9)` and returns
`maxy * exp(-((xn - center)^2) / (2 width^2))` (defaults in the source:
`width = 0.2`, `maxy = 1.0`; the script calls it with `width = 0.18`,
`maxy = 1.0`). -/
noncomputable def gaussian_peak (x : List ℚ) (center width maxy : ℝ) : Option (List ℝ) :=
  match x.max?, x.min? with
  | some x1, some x0 =>
      some (x.map fun xi =>
        maxy * Real.exp (-((((xi : ℝ) - (x0 : ℝ)) /
          ((x1 : ℝ) - (x0 : ℝ) + epsNorm) - center) ^ 2) / (2 * width ^ 2)))
  | _, _ => none

/-- `descending_curve` from `escai/file.py` (lines 32-37): normalises `x`
the same way and returns the logistic `1 / (1 + exp((xn - knee_frac) * 12))`
(default in the source: `knee_frac = 0.15`). -/
noncomputable def descending_curve (x : List ℚ) (knee_frac : ℝ) : Option (List ℝ) :=
  match x.max?, x.min? with
  | some x1, some x0 =>
      some (x.map fun xi =>
        1 / (1 + Real.exp ((((xi : ℝ) - (x0 : ℝ)) /
          ((x1 : ℝ) - (x0 : ℝ) + epsNorm) - knee_frac) * 12)))
  | _, _ => none

/-! ### The text-scraping routine `extract_key_values` of st2.py

`extract_key_values` (st2.py lines 53-104) joins the uploaded document's
paragraphs with `"\n"` and scrapes the joined text with `re` patterns.
The specific patterns are embedded as character-list scanners that follow
Python `re` semantics for these patterns (leftmost non-overlapping
matches, greedy/lazy quantifier order, `IGNORECASE`); `\w`/`\b` and `\s`
are modelled over ASCII, which covers the character classes these
patterns can actually match. -/

/-- Python `\w` (ASCII): letters, digits and underscore. -/
def isPyWordChar (c : Char) : Bool :=
  c.isAlphanum || c == '_'

/-- Python `\s` (ASCII): space, tab, newline, carriage return, vertical
tab, form feed. -/
def isPySpace (c : Char) : Bool :=
  c == ' ' || c == '\t' || c == '\n' || c == '\r' || c == '\x0b' || c == '\x0c'

/-- Case-insensitive literal match; returns the rest after the literal. -/
def matchLit : List Char → List Char → Option (List Char)
  | [], l => some l
  | _ :: _, [] => none
  | c :: cs, d :: l => if d.toLower == c.toLower then matchLit cs l else none

/-- Take exactly `n` digit characters. -/
def takeDigits : Nat → List Char → Option (List Char × List Char)
  | 0, l => some ([], l)
  | _ + 1, [] => none
  | n + 1, c :: l =>
    if c.isDigit then
      match takeDigits n l with
      | some (ds, r) => some (c :: ds, r)
      | none => none
    else none

/-- A `\b` word boundary holds after a word character at this position. -/
def atWordEnd : List Char → Bool
  | [] => true
  | c :: _ => !isPyWordChar c

/-- Numeric value of a digit string (Python `int`). -/
def digitsToNat (ds : List Char) : Nat :=
  ds.foldl (fun n c => 10 * n + (c.toNat - '0'.toNat)) 0

/-- Shared tail `\s*K\b` of the CCT pattern. -/
def cctFinish (digits : List Char) (r : List Char) :
    Option (List Char × List Char) :=
  let r2 := r.dropWhile isPySpace
  match r2 with
  | k :: r3 => if (k == 'K' || k == 'k') && atWordEnd r3 then some (digits, r3) else none
  | [] => none

/-- Match of `(\b[23-7]\d{2,3})\s*K\b` (IGNORECASE) at the current
position; the caller guarantees the leading word boundary.  `\d{2,3}` is
greedy: three extra digits are tried before two. -/
def cctHere : List Char → Option (List Char × List Char)
  | [] => none
  | c :: rest =>
    if '2' ≤ c && c ≤ '7' then
      (match takeDigits 3 rest with
       | some (ds, r) => cctFinish (c :: ds) r
       | none => none).orElse fun _ =>
      (match takeDigits 2 rest with
       | some (ds, r) => cctFinish (c :: ds) r
       | none => none)
    else none

/-- Shared tail `\s*(alt1|alt2|...)\b` of the lux/Hz patterns: skip
whitespace, then try the alternation branches in order (each
case-insensitively), requiring a trailing word boundary. -/
def unitFinish (alts : List (List Char)) (digits : List Char) (r : List Char) :
    Option (List Char × List Char) :=
  let r2 := r.dropWhile isPySpace
  alts.findSome? fun unit =>
    match matchLit unit r2 with
    | some r3 => if atWordEnd r3 then some (digits, r3) else none
    | none => none

/-- Match of `(\b\d{2,4})\s*(alt1|...)\b` (IGNORECASE) at the current
position, greedy digit count (4, then 3, then 2).  For the lux pattern
`(?:lux|LX|Lux)` the branches under IGNORECASE are `lux` and the
two-character `lx` (the `Lux` branch is identical to `lux`); for the Hz
pattern the single branch is `hz`. -/
def numUnitHere (alts : List (List Char)) (l : List Char) :
    Option (List Char × List Char) :=
  [4, 3, 2].findSome? fun n =>
    match takeDigits n l with
    | some (ds, r) => unitFinish alts ds r
    | none => none

/-- The lazy gap `.*?(\d{2,3})` after `CRI`: extend the non-newline gap
minimally until 2-3 digits (greedy) can be taken. -/
def criDigitsFrom : List Char → Option (List Char × List Char)
  | [] => none
  | c :: rest =>
    match takeDigits 3 (c :: rest) with
    | some (ds, r) => some (ds, r)
    | none =>
      match takeDigits 2 (c :: rest) with
      | some (ds, r) => some (ds, r)
      | none => if c == '\n' then none else criDigitsFrom rest

/-- Match of `CRI.*?(\d{2,3})` (IGNORECASE) at the current position (no
word boundaries in this pattern). -/
def criHere (l : List Char) : Option (List Char × List Char) :=
  match matchLit "cri".toList l with
  | some r => criDigitsFrom r
  | none => none

/-- The tail `\s*%\s*(?:improv|increase|decrease|reduc)` (IGNORECASE) of
the percent-change pattern. -/
def pctTail (r : List Char) : Option (List Char) :=
  let r1 := r.dropWhile isPySpace
  match r1 with
  | '%' :: r2 =>
    let r3 := r2.dropWhile isPySpace
    (matchLit "improv".toList r3).orElse fun _ =>
    (matchLit "increase".toList r3).orElse fun _ =>
    (matchLit "decrease".toList r3).orElse fun _ =>
    matchLit "reduc".toList r3
  | _ => none

/-- The group `[\d]{1,3}\.?\d{0,2}` with `a` leading digits: try the
optional dot (greedy) and then 2, 1 or 0 trailing digits (greedy),
backtracking into `pctTail`. -/
def pctWithDigits (a : Nat) (l : List Char) : Option (List Char × List Char) :=
  match takeDigits a l with
  | none => none
  | some (da, r1) =>
    let withDot : Option (List Char × List Char) :=
      match r1 with
      | '.' :: r1' =>
        [2, 1, 0].findSome? fun b =>
          match takeDigits b r1' with
          | some (db, r2) =>
            match pctTail r2 with
            | some rr => some (da ++ '.' :: db, rr)
            | none => none
          | none => none
      | _ => none
    withDot.orElse fun _ =>
      [2, 1, 0].findSome? fun b =>
        match takeDigits b r1 with
        | some (db, r2) =>
          match pctTail r2 with
          | some rr => some (da ++ db, rr)
          | none => none
        | none => none

/-- Match of `([\d]{1,3}\.?\d{0,2})\s*%\s*(?:improv|increase|decrease|reduc)`
at the current position (no word boundaries; leading digits greedy). -/
def pctHere (l : List Char) : Option (List Char × List Char) :=
  [3, 2, 1].findSome? fun a => pctWithDigits a l

/-- `re.findall` scan for a pattern that starts with `\b` before a word
character: try the matcher at every position whose predecessor is a
non-word character, collect captures left to right, resume after each
match (all such patterns here end in a word character, so the resumption
predecessor is a word character).  `fuel` bounds the number of scan
steps; callers pass `length + 1`, which is sufficient since every step
consumes at least one character. -/
def scanBounded (matcher : List Char → Option (List Char × List Char)) :
    Nat → Bool → List Char → List (List Char)
  | 0, _, _ => []
  | _ + 1, _, [] => []
  | fuel + 1, prevWord, c :: rest =>
    if !prevWord then
      match matcher (c :: rest) with
      | some (g, r) => g :: scanBounded matcher fuel true r
      | none => scanBounded matcher fuel (isPyWordChar c) rest
    else scanBounded matcher fuel (isPyWordChar c) rest

/-- `re.findall` scan for a pattern without a leading word boundary. -/
def scanFree (matcher : List Char → Option (List Char × List Char)) :
    Nat → List Char → List (List Char)
  | 0, _ => []
  | _ + 1, [] => []
  | fuel + 1, c :: rest =>
    match matcher (c :: rest) with
    | some (g, r) => g :: scanFree matcher fuel r
    | none => scanFree matcher fuel rest

/-- `re.search(r"\b<word>\b", txt, IGNORECASE)` as a Boolean. -/
def searchWordCI (w : List Char) : Bool → List Char → Bool
  | _, [] => false
  | prevWord, c :: rest =>
    ((!prevWord) &&
      (match matchLit w (c :: rest) with
       | some r => atWordEnd r
       | none => false)) ||
    searchWordCI w (isPyWordChar c) rest

/-- All captures of the CCT pattern in a text. -/
def findCCT (cs : List Char) : List (List Char) :=
  scanBounded cctHere (cs.length + 1) false cs

/-- All captures of the lux pattern in a text. -/
def findLux (cs : List Char) : List (List Char) :=
  scanBounded (numUnitHere ["lux".toList, "lx".toList, "lux".toList])
    (cs.length + 1) false cs

/-- All captures of the Hz pattern in a text. -/
def findHz (cs : List Char) : List (List Char) :=
  scanBounded (numUnitHere ["hz".toList]) (cs.length + 1) false cs

/-- All captures of the CRI-values pattern in a text. -/
def findCRIvals (cs : List Char) : List (List Char) :=
  scanFree criHere (cs.length + 1) cs

/-- All captures of the percent-change pattern in a text. -/
def findPct (cs : List Char) : List (List Char) :=
  scanFree pctHere (cs.length + 1) cs

/-- Python `sorted(set(...))` on a list of naturals: ascending list of
the distinct values. -/
def sortedSet (l : List ℕ) : List ℕ :=
  List.insertionSort (· ≤ ·) l.dedup

/-- The age-group keywords probed by `extract_key_values` (st2.py line
93), in loop order. -/
def ageLabels : List String :=
  ["preschool", "kindergarten", "elementary", "primary", "secondary",
   "adolescent", "undergraduate", "children"]

/-- The best-effort dict returned by `extract_key_values`; a key absent
from the Python dict is `none`. -/
structure ExtractResult where
  CCT_values : Option (List ℕ)
  Lux_values : Option (List ℕ)
  CRI_values : Option (List ℕ)
  Flicker_freqs_Hz : Option (List ℕ)
  age_mentions : Option (List String)
  percent_changes : Option (List String)
deriving DecidableEq, Repr

/-- Body of `extract_key_values` applied to the joined text. -/
def extractFromText (txt : String) : ExtractResult :=
  let cs := txt.toList
  let cct := findCCT cs
  let lux := findLux cs
  let cri : Option (List ℕ) :=
    if searchWordCI "cri".toList false cs then
      let vals := findCRIvals cs
      if vals ≠ [] then some (sortedSet (vals.map digitsToNat)) else none
    else none
  let flick := findHz cs
  let ages := ageLabels.filter fun w => searchWordCI w.toList false cs
  let pct := findPct cs
  { CCT_values := if cct ≠ [] then some (sortedSet (cct.map digitsToNat)) else none
    Lux_values := if lux ≠ [] then some (sortedSet (lux.map digitsToNat)) else none
    CRI_values := cri
    Flicker_freqs_Hz :=
      if flick ≠ [] then some (sortedSet (flick.map digitsToNat)) else none
    age_mentions := if ages ≠ [] then some ages else none
    percent_changes := if pct ≠ [] then some (pct.map fun g => String.mk g) else none }

/-- `extract_key_values` from st2.py (lines 53-104): joins the paragraph
list with `"\n"` and scrapes the joined text. -/
def extract_key_values (paragraphs : List String) : ExtractResult :=
  extractFromText (String.intercalate "\n" paragraphs)

/-! ### Document assembly

The document builds are modelled as sequences of operations over an
abstract filesystem.  `doc.add_picture` raises (python-docx
`PackageNotFoundError`/`FileNotFoundError`) when the image file does not
exist, which is the only failure point the claims exercise; every other
operation appends to the in-memory document. -/

/-- Abstract filesystem: a path maps to the paragraph texts of the file
at that path, or `none` when no file exists there.  For image files only
existence is relevant. -/
def FS := String → Option (List String)

/-- A block of an assembled document. -/
inductive Block where
  | heading : String → Nat → Block
  | para : String → Block
  | picture : String → Block
deriving DecidableEq, Repr

/-- One document-assembly operation: `doc.add_heading`,
`doc.add_paragraph`, `doc.add_picture`, `fig.savefig`/`plt.savefig`, or
`doc.save`. -/
inductive DocOp where
  | addHeading : String → Nat → DocOp
  | addPara : String → DocOp
  | addPicture : String → DocOp
  | savefig : String → DocOp
  | save : String → DocOp
deriving DecidableEq, Repr

/-- Run an assembly sequence: pictures must exist, either written earlier
in this run (`savefig`) or present on the filesystem; a missing picture
aborts the run with the offending path (an uncaught exception).  Returns
the document blocks and the files saved. -/
def runOps (fsEx : String → Bool) : List DocOp → List String →
    Except String (List Block × List String)
  | [], _ => .ok ([], [])
  | .addHeading t l :: ops, written =>
      (runOps fsEx ops written).map fun r => (.heading t l :: r.1, r.2)
  | .addPara t :: ops, written =>
      (runOps fsEx ops written).map fun r => (.para t :: r.1, r.2)
  | .addPicture p :: ops, written =>
      if written.contains p || fsEx p then
        (runOps fsEx ops written).map fun r => (.picture p :: r.1, r.2)
      else .error p
  | .savefig p :: ops, written =>
      (runOps fsEx ops (p :: written)).map fun r => (r.1, p :: r.2)
  | .save p :: ops, written =>
      (runOps fsEx ops written).map fun r => (r.1, p :: r.2)

/-- The blocks an assembly sequence produces when it succeeds. -/
def opsBlocks : List DocOp → List Block
  | [] => []
  | .addHeading t l :: ops => .heading t l :: opsBlocks ops
  | .addPara t :: ops => .para t :: opsBlocks ops
  | .addPicture p :: ops => .picture p :: opsBlocks ops
  | .savefig _ :: ops => opsBlocks ops
  | .save _ :: ops => opsBlocks ops

/-- The files an assembly sequence saves when it succeeds. -/
def opsSaves : List DocOp → List String
  | [] => []
  | .savefig p :: ops => p :: opsSaves ops
  | .save p :: ops => p :: opsSaves ops
  | .addHeading _ _ :: ops => opsSaves ops
  | .addPara _ :: ops => opsSaves ops
  | .addPicture _ :: ops => opsSaves ops

/-- Every inserted picture was written earlier in the run (so the run
cannot fail, whatever the filesystem contains). -/
def picsCovered : List DocOp → List String → Bool
  | [], _ => true
  | .addPicture p :: ops, w => w.contains p && picsCovered ops w
  | .savefig p :: ops, w => picsCovered ops (p :: w)
  | .addHeading _ _ :: ops, w => picsCovered ops w
  | .addPara _ :: ops, w => picsCovered ops w
  | .save _ :: ops, w => picsCovered ops w

/-- `read_docx_text` from st2.py (lines 43-51): `(None, [])` when the
file does not exist, otherwise the stripped non-empty paragraphs and
their `"\n\n"`-join. -/
def read_docx_text (fs : FS) (path : String) : Option String × List String :=
  match fs path with
  | none => (none, [])
  | some content =>
    let paras := (content.map String.trim).filter fun s => s ≠ ""
    (some (String.intercalate "\n\n" paras), paras)

/-- The summary built from the extracted key values and excerpts (st2.py
lines 366-388, the found-file branch). -/
def summaryFromKV (kv : ExtractResult) (paras : List String) : String :=
  let lines :=
    ["Findings extracted from your uploaded file (Schools information.docx):"]
    ++ (match kv.CCT_values with
        | some l => [" - Reported/tested CCT values: " ++
            String.intercalate ", " (l.map fun x => toString x ++ "K")]
        | none => [])
    ++ (match kv.Lux_values with
        | some l => [" - Reported illuminance (lux) measurements: " ++
            String.intercalate ", " (l.map fun x => toString x ++ " lx")]
        | none => [])
    ++ (match kv.CRI_values with
        | some l => [" - Reported CRI values: " ++
            String.intercalate ", " (l.map fun x => toString x)]
        | none => [])
    ++ (match kv.Flicker_freqs_Hz with
        | some l => [" - Reported flicker frequencies: " ++
            String.intercalate ", " (l.map fun x => toString x) ++ " Hz"]
        | none => [])
    ++ (match kv.age_mentions with
        | some l => [" - Age groups mentioned: " ++ String.intercalate ", " l]
        | none => [])
    ++ (match kv.percent_changes with
        | some l => [" - % changes noted: " ++ String.intercalate ", " l]
        | none => [])
    ++ (let excerpts := paras.take 3
        if excerpts ≠ [] then
          "\nKey excerpts from the uploaded study:" ::
            excerpts.map fun e =>
              "   • " ++ (if e.length < 400 then e
                else String.mk (e.toList.take 400) ++ "...")
        else [])
  String.intercalate "\n" lines

/-- `uploaded_summary` from st2.py (lines 360-388): the placeholder
message when the uploaded file is absent, the key-value summary
otherwise. -/
def uploaded_summary (fs : FS) : String :=
  match read_docx_text fs INPUT_UPLOADED_DOCX with
  | (none, _) => "No uploaded file found at: " ++ INPUT_UPLOADED_DOCX
  | (some _, paras) => summaryFromKV (extract_key_values paras) paras

/-- st2.py output directory (`OUT_DIR`, line 26), relative to the working
directory. -/
def st2OUT_DIR (cwd : String) : String :=
  cwd ++ "/school_lighting_booklet_output"

/-- st2.py images directory (`IMG_DIR`, line 27). -/
def st2IMG_DIR (cwd : String) : String :=
  st2OUT_DIR cwd ++ "/images"

/-- st2.py chart filename for a chapter title (line 482). -/
def st2ImgName (title : String) : String :=
  (((((title.replace " " "_").replace "/" "_").replace "(" "").replace ")" "").replace ":" "")
    ++ ".png"

/-- The document operations of one row of the st2.py recommendations
loop (lines 430-438). -/
def st2RecOps (rec : RecRow) : List DocOp :=
  [ DocOp.addPara ("• " ++ rec.who),
    DocOp.addPara ("    - " ++ rec.line1 ++ " | " ++ rec.line2 ++ " | " ++ rec.line3),
    DocOp.addPara ("    - Melanopic target: " ++ rec.line4 ++ " | CCT: " ++ rec.line5),
    DocOp.addPara ("    - Notes: " ++ rec.note),
    DocOp.addPara "    - Sources:" ]
  ++ rec.refs.map fun r => DocOp.addPara ("      • " ++ r.1 ++ " — " ++ r.2)

/-- The document operations of one chapter of the st2.py parameter loop
(lines 443-497): heading, notes, band summary, chart (rendered by the
loop itself, then inserted), and references, with the local-file
citation special-cased. -/
def st2ChapterOps (cwd : String) (p : ParamRec) : List DocOp :=
  [ DocOp.addHeading p.title 2,
    DocOp.addPara p.notes,
    DocOp.addPara ("Optimal: " ++ p.good.1.str ++ "–" ++ p.good.2.str ++
      "   |   Caution: " ++ p.warn.1.str ++ "–" ++ p.warn.2.str),
    DocOp.savefig (st2IMG_DIR cwd ++ "/" ++ st2ImgName p.title),
    DocOp.addPicture (st2IMG_DIR cwd ++ "/" ++ st2ImgName p.title),
    DocOp.addPara "References:" ]
  ++ p.refs.map fun r =>
      if r.2 == INPUT_UPLOADED_DOCX then
        DocOp.addPara ("• " ++ r.1 ++ " — (from uploaded file) " ++ r.2)
      else
        DocOp.addPara ("• " ++ r.1 ++ " — " ++ r.2)

/-- The full document-assembly sequence of st2.py (lines 393-514), as a
function of the working directory and the filesystem holding (or
missing) the uploaded document. -/
def st2Ops (cwd : String) (fs : FS) : List DocOp :=
  let uploaded_paras := (read_docx_text fs INPUT_UPLOADED_DOCX).2
  [ DocOp.addHeading "Lighting in Schools — Biological & Cognitive Effects" 0,
    DocOp.addPara "Merged booklet that combines your uploaded study findings with literature-anchored parameter analysis.",
    DocOp.addHeading "The Problem" 1,
    DocOp.addPara "Poor lighting in schools — including incorrect spectral content (CCT), low color rendering (CRI), excessive flicker, high glare (UGR), low or very uneven illuminance, and inadequate melanopic stimulation — undermines student performance, increases visual and physiological strain, disturbs sleep and circadian rhythms, and negatively effects mood.",
    DocOp.addPara "Merged uploaded-study findings (brief):",
    DocOp.addPara (uploaded_summary fs),
    DocOp.addHeading "The Idea" 1,
    DocOp.addPara "This study compares measurable lighting parameters across a range of values and quantifies biological and cognitive responses. We combine standards (EN 12464-1, IEEE 1789, WELL) and academic dose–response anchors with the empirical results reported in the uploaded study to form practical recommendations.",
    DocOp.addHeading "The Study (Compare good vs bad values)" 1,
    DocOp.addPara "For each parameter we present: definition, biological mechanism, a literature-anchored response curve, and optimal/caution/risk ranges.",
    DocOp.addPara "Key points from the uploaded study (selected):" ]
  ++ (if uploaded_paras ≠ [] then
        (List.enumFrom 1 (uploaded_paras.take 8)).map fun ip =>
          DocOp.addPara (toString ip.1 ++ ". " ++ ip.2)
      else
        [DocOp.addPara "No uploaded study content available or file not found at the expected path."])
  ++ [ DocOp.addHeading "Solution (Good values per age & environment)" 1,
       DocOp.addPara "Recommendations synthesized from standards and uploaded-study observations:" ]
  ++ (st2RECS.map st2RecOps).flatten
  ++ [ DocOp.addHeading "Chapters: Parameter-by-Parameter" 1 ]
  ++ (st2PARAMS.map (st2ChapterOps cwd)).flatten
  ++ [ DocOp.addHeading "Master References" 1 ]
  ++ st2master_refs.map (fun r => DocOp.addPara ("• " ++ r.1 ++ " — " ++ r.2))
  ++ [ DocOp.save (st2OUT_DIR cwd ++ "/School_Lighting_Booklet_Merged.docx") ]

/-- One full run of st2.py's document build. -/
def st2Run (cwd : String) (fs : FS) : Except String (List Block × List String) :=
  runOps (fun p => (fs p).isSome) (st2Ops cwd fs) []

/-- The document-assembly sequence of `escai/file_old.py` (the whole
module body): three figures are rendered by the script itself
(`plt.savefig`) while `mdpi_vis_comparison.png` is an externally supplied
image that must already exist on disk. -/
def fileOldOps : List DocOp := [
  DocOp.addHeading "Smart Adaptive LED Street Lighting (eSCai)" 0,
  DocOp.addHeading "Abstract" 1,
  DocOp.addPara "This research expands on the eSCai smart street lighting system, emphasizing adaptive control of LED fixtures to reduce traffic accidents and optimize energy usage. The study identifies the problem of reduced visibility under rain and fog and the high cost of operating LEDs at full power. The proposed solution introduces adaptive dimming, correlated color temperature (CCT) adjustment, and smart control algorithms. Comparative analysis demonstrates that operating LEDs at 50% doubles lifespan and saves up to 50% energy while maintaining or enhancing visibility. The findings show significant improvements in safety and cost-effectiveness.",
  DocOp.addHeading "Introduction" 1,
  DocOp.addPara "Road safety remains a major global challenge, particularly under adverse weather conditions such as rain and fog. Traditional street lighting systems are static and do not adjust to changing environmental conditions. Operating LEDs continuously at 100% power shortens lifespan due to heat generation, while also leading to higher energy costs. This paper introduces eSCai, a smart adaptive street lighting fixture that addresses these issues.",
  DocOp.addHeading "Problem Statement" 1,
  DocOp.addPara "Traffic accidents are common under fog and rain due to reduced visibility. Conventional lighting does not address this issue. At the same time, full-power LED operation increases energy consumption and reduces lifespan. The challenge: combine safety, efficiency, and sustainability.",
  DocOp.addHeading "Why 3000K CCT Improves Visibility in Fog" 1,
  DocOp.addPara "Fog consists of fine water droplets that scatter light. Shorter wavelengths (blue/white ~450nm, 6000K CCT) scatter more, causing glare. Longer wavelengths (yellowish ~600nm, 3000K CCT) scatter less, penetrating fog more effectively. Empirical evidence (Kang & Kwon, 2021, Applied Sciences) shows up to 300% improvement in contrast for dark targets in fog.",
  DocOp.savefig "block_diagram_better.png",
  DocOp.addPicture "block_diagram_better.png",
  DocOp.addPara "Figure 1: Improved block diagram of the eSCai smart lighting system.",
  DocOp.savefig "energy_comparison.png",
  DocOp.addPicture "energy_comparison.png",
  DocOp.addPara "Figure 2: Energy consumption of traditional 100% LED vs eSCai at 50%.",
  DocOp.addPicture "mdpi_vis_comparison.png",
  DocOp.addPara "Figure 3: Visibility comparison in fog using 3000 K vs 6000 K lighting (from Kang & Kwon, 2021).",
  DocOp.savefig "spectral.png",
  DocOp.addPicture "spectral.png",
  DocOp.addPara "Figure 4: Simplified spectral distribution showing less scattering at 3000K.",
  DocOp.addHeading "Results and Discussion" 1,
  DocOp.addPara "The results confirm that eSCai reduces energy use by ~50%, doubles LED lifespan, and improves visibility in fog. The MDPI study confirms up to 300% improvement in contrast for pedestrians in heavy fog. Municipalities adopting this system can save energy, reduce maintenance, and increase safety.",
  DocOp.addHeading "Conclusion" 1,
  DocOp.addPara "The eSCai smart fixture integrates adaptive dimming, CCT adjustment, and efficient control. It demonstrates significant improvements over traditional systems. Future enhancements may include IoT connectivity and AI-based prediction.",
  DocOp.addHeading "References" 1,
  DocOp.addPara "[1] H. Kang and S.-J. Kwon, “A Study on the Night Visibility Evaluation Method of Color Temperature Convertible Automotive Headlamps Considering Weather Conditions,” Applied Sciences, vol. 11, no. 18, p. 8661, 2021. DOI: 10.3390/app11188661\n[2] Analysis of System Response, Energy Savings, and Fault Detection in a Weather and Traffic-Adaptive Smart Lighting System.\n[3] Studies on LED thermal stress and lifespan under dimmed operation.\n",
  DocOp.save "Smart_Lighting_Research_Final.docx"
]

/-- One full run of `escai/file_old.py`'s document build. -/
def fileOldRun (fs : FS) : Except String (List Block × List String) :=
  runOps (fun p => (fs p).isSome) fileOldOps []

/-! ### Files saved by one run of each script

Each list mirrors the `savefig`/`save` calls of the script and the path
arithmetic building their arguments (`os.path.join` with the working
directory, Python `str.replace` chains for chart names, `pathlib` for
st3.py/int.py, which normalises away the leading `./`). -/

/-- st.py chart filename stem (line 398). -/
def stSafeName (t : String) : String :=
  ((((t.replace " " "_").replace "/" "_").replace "(" "").replace ")" "").replace ":" ""

/-- PNGs written by st.py (lines 398-400), one per `PARAMS` record. -/
def stSavedPNGs (cwd : String) : List String :=
  stPARAMS.map fun p =>
    (cwd ++ "/school_lighting_booklet_output/images/") ++ (stSafeName p.title ++ ".png")

/-- Word documents saved by st.py (lines 431-432). -/
def stSavedDocx (cwd : String) : List String :=
  [cwd ++ "/school_lighting_booklet_output/School_Lighting_Booklet_FULL.docx"]

/-- PNGs written by st2.py (lines 482-485), one per `PARAMS` record. -/
def st2SavedPNGs (cwd : String) : List String :=
  st2PARAMS.map fun p => (st2IMG_DIR cwd ++ "/") ++ st2ImgName p.title

/-- Word documents saved by st2.py (lines 29, 514). -/
def st2SavedDocx (cwd : String) : List String :=
  [st2OUT_DIR cwd ++ "/School_Lighting_Booklet_Merged.docx"]

/-- escai/file.py chart filename (line 266; no colon replacement). -/
def escaiImgName (name : String) : String :=
  ((((name.replace " " "_").replace "/" "_").replace "(" "").replace ")" "") ++ ".png"

/-- PNGs written by escai/file.py (lines 266-268), one per `PARAMETERS`
record. -/
def escaiSavedPNGs (cwd : String) : List String :=
  escaiPARAMETERS.map fun p =>
    (cwd ++ "/lighting_booklet_output/images/") ++ escaiImgName p.name

/-- Word documents saved by escai/file.py (lines 370-371). -/
def escaiSavedDocx (cwd : String) : List String :=
  [cwd ++ "/lighting_booklet_output/School_Lighting_Booklet_FINAL.docx"]

/-- PNGs written by escai/file2.py (lines 107-108), one per parameter,
into the relative `graphs` directory. -/
def file2SavedPNGs : List String :=
  file2parameters.map fun p =>
    "graphs/" ++ (((p.name.replace " " "_").replace "/" "_") ++ ".png")

/-- Word documents saved by escai/file2.py (line 121), beside the
`graphs` directory. -/
def file2SavedDocx : List String :=
  ["School_Lighting_Booklet.docx"]

/-- Word documents saved by st3.py: `write_chapter` saves one file per
`chapters` entry (lines 96-97, 436-437). -/
def st3SavedDocx : List String :=
  st3ChapterFilenames.map fun fn => "school_lighting_chapters/" ++ fn

/-- st3.py renders no charts at all. -/
def st3SavedPNGs : List String := []

/-- Word documents saved by int.py (lines 10, 77). -/
def intSavedDocx : List String := ["Intro_School_Lighting.docx"]

/-- int.py renders no charts at all. -/
def intSavedPNGs : List String := []

/-- PNGs written by a (successful) run of escai/file_old.py: the
`plt.savefig` calls of its assembly sequence, all in the working
directory itself. -/
def fileOldSavedPNGs : List String :=
  fileOldOps.filterMap fun op =>
    match op with
    | .savefig p => some p
    | _ => none

/-- Word documents saved by escai/file_old.py: the `doc.save` calls of
its assembly sequence. -/
def fileOldSavedDocx : List String :=
  fileOldOps.filterMap fun op =>
    match op with
    | .save p => some p
    | _ => none

/-- PNGs written by `School/school Papers/file.py` (lines 75-76), one per
parameter, directly into `/mnt/data/`. -/
def papersSavedPNGs : List String :=
  papersParamNames.map fun n =>
    "/mnt/data/" ++
      (((((n.replace " " "_").replace "(" "").replace ")" "").replace "/" "_") ++ ".png")

/-- Word documents saved by `School/school Papers/file.py` (lines
101-102). -/
def papersSavedDocx : List String :=
  ["/mnt/data/School_Lighting_Booklet_Final.docx"]

/-! ### Properties of the `np.interp` model -/

theorem interpSeg_left (x0 y0 x1 y1 : ℚ) : interpSeg x0 x0 y0 x1 y1 = y0 := by
  simp [interpSeg]

theorem interpSeg_right (x0 y0 x1 y1 : ℚ) (h : x0 ≠ x1) :
    interpSeg x1 x0 y0 x1 y1 = y1 := by
  have hne : x1 - x0 ≠ 0 := sub_ne_zero.mpr (Ne.symm h)
  field_simp [interpSeg]

theorem npInterpPts_anchor (ps : List (ℚ × ℚ))
    (hp : ps.Pairwise fun p q => p.1 < q.1) :
    ∀ (i : ℕ) (p : ℚ × ℚ), ps[i]? = some p → npInterpPts p.1 ps = p.2 := by
  induction ps with
  | nil => intro i p h; simp at h
  | cons q0 tl ih =>
    intro i p h
    match tl, i with
    | [], 0 =>
      simp at h
      subst h
      rfl
    | [], _ + 1 => simp at h
    | q1 :: tl', 0 =>
      simp at h
      subst h
      simp [npInterpPts]
    | q1 :: tl', j + 1 =>
      have hj : (q1 :: tl')[j]? = some p := by simpa using h
      have hmem : p ∈ q1 :: tl' := List.getElem?_mem hj
      have hlt : q0.1 < p.1 := (List.pairwise_cons.mp hp).1 p hmem
      have htl : (q1 :: tl').Pairwise fun p q => p.1 < q.1 :=
        (List.pairwise_cons.mp hp).2
      rw [npInterpPts, if_neg (not_le.mpr hlt)]
      match j with
      | 0 =>
        have hq : q1 = p := by simpa using hj
        subst hq
        rw [if_pos le_rfl]
        exact interpSeg_right _ _ _ _ (ne_of_lt hlt)
      | j' + 1 =>
        have hj' : tl'[j']? = some p := by simpa using hj
        cases tl' with
        | nil => simp at hj'
        | cons q2 tl'' =>
          have hmem' : p ∈ q2 :: tl'' := List.getElem?_mem hj'
          have hlt' : q1.1 < p.1 := (List.pairwise_cons.mp htl).1 p hmem'
          rw [if_neg (not_le.mpr hlt')]
          exact ih htl (j' + 1) p hj

theorem npInterpPts_segment (ps : List (ℚ × ℚ))
    (hp : ps.Pairwise fun p q => p.1 < q.1) :
    ∀ (i : ℕ) (p q : ℚ × ℚ), ps[i]? = some p → ps[i + 1]? = some q →
      ∀ x : ℚ, p.1 ≤ x → x ≤ q.1 →
        npInterpPts x ps = interpSeg x p.1 p.2 q.1 q.2 := by
  induction ps with
  | nil => intro i p q h1 h2; simp at h1
  | cons q0 tl ih =>
    intro i p q h1 h2 x hx1 hx2
    match tl, i with
    | [], 0 => simp at h2
    | [], _ + 1 => simp at h1
    | q1 :: tl', 0 =>
      have hq0 : q0 = p := by simpa using h1
      have hq1 : q1 = q := by simpa using h2
      subst hq0
      subst hq1
      by_cases hle : x ≤ q0.1
      · have hxp : x = q0.1 := le_antisymm hle hx1
        subst hxp
        rw [npInterpPts, if_pos le_rfl, interpSeg_left]
      · rw [npInterpPts, if_neg hle, if_pos hx2]
    | q1 :: tl', j + 1 =>
      have hj1 : (q1 :: tl')[j]? = some p := by simpa using h1
      have hj2 : (q1 :: tl')[j + 1]? = some q := by simpa using h2
      have hmem : p ∈ q1 :: tl' := List.getElem?_mem hj1
      have hlt : q0.1 < p.1 := (List.pairwise_cons.mp hp).1 p hmem
      have htl : (q1 :: tl').Pairwise fun p q => p.1 < q.1 :=
        (List.pairwise_cons.mp hp).2
      rw [npInterpPts, if_neg (not_le.mpr (lt_of_lt_of_le hlt hx1))]
      match j with
      | 0 =>
        have hq : q1 = p := by simpa using hj1
        subst hq
        by_cases hle : x ≤ q1.1
        · have hxp : x = q1.1 := le_antisymm hle hx1
          subst hxp
          rw [if_pos le_rfl, interpSeg_right _ _ _ _ (ne_of_lt hlt), interpSeg_left]
        · rw [if_neg hle]
          exact ih htl 0 q1 q (by simp) hj2 x hx1 hx2
      | j' + 1 =>
        have hj1' : tl'[j']? = some p := by simpa using hj1
        cases tl' with
        | nil => simp at hj1'
        | cons q2 tl'' =>
          have hmem' : p ∈ q2 :: tl'' := List.getElem?_mem hj1'
          have hlt' : q1.1 < p.1 := (List.pairwise_cons.mp htl).1 p hmem'
          rw [if_neg (not_le.mpr (lt_of_lt_of_le hlt' hx1))]
          exact ih htl (j' + 1) p q hj1 hj2 x hx1 hx2

theorem npInterpPts_clamp_left (ps : List (ℚ × ℚ)) (p : ℚ × ℚ)
    (h0 : ps.head? = some p) (x : ℚ) (hx : x ≤ p.1) :
    npInterpPts x ps = p.2 := by
  match ps with
  | [] => simp at h0
  | [q] =>
    simp at h0
    subst h0
    rfl
  | q0 :: q1 :: tl =>
    simp at h0
    subst h0
    rw [npInterpPts, if_pos hx]

theorem npInterpPts_clamp_right (ps : List (ℚ × ℚ))
    (hp : ps.Pairwise fun p q => p.1 < q.1) :
    ∀ p : ℚ × ℚ, ps.getLast? = some p → ∀ x : ℚ, p.1 ≤ x →
      npInterpPts x ps = p.2 := by
  induction ps with
  | nil => intro p h; simp at h
  | cons q0 tl ih =>
    intro p h x hx
    match tl, h with
    | [], h =>
      simp at h
      subst h
      rfl
    | q1 :: tl', h =>
      have hlast : (q1 :: tl').getLast? = some p := by
        rw [List.getLast?_cons_cons] at h
        exact h
      have hmem : p ∈ q1 :: tl' := List.mem_of_getLast?_eq_some hlast
      have hlt : q0.1 < p.1 := (List.pairwise_cons.mp hp).1 p hmem
      have htl : (q1 :: tl').Pairwise fun p q => p.1 < q.1 :=
        (List.pairwise_cons.mp hp).2
      rw [npInterpPts, if_neg (not_le.mpr (lt_of_lt_of_le hlt hx))]
      cases tl' with
      | nil =>
        have hq : q1 = p := by simpa using hlast
        subst hq
        by_cases hle : x ≤ q1.1
        · have hxp : x = q1.1 := le_antisymm hle hx
          subst hxp
          rw [if_pos le_rfl]
          exact interpSeg_right _ _ _ _ (ne_of_lt hlt)
        · rw [if_neg hle]
          rfl
      | cons q2 tl'' =>
        have hmem' : p ∈ q2 :: tl'' := by
          have := List.mem_of_getLast?_eq_some (show (q2 :: tl'').getLast? = some p by
            rw [List.getLast?_cons_cons] at hlast
            exact hlast)
          exact this
        have hlt' : q1.1 < p.1 := (List.pairwise_cons.mp htl).1 p hmem'
        rw [if_neg (not_le.mpr (lt_of_lt_of_le hlt' hx))]
        exact ih htl p hlast x hx

/-- C5: when `interpolate_curve` (st2.py) is called with anchor arrays of
unequal lengths, both are truncated to the shorter length `m` and the
result is piecewise-linear interpolation (`np.interp`) through the first
`m` anchor pairs, and the call succeeds whenever `m > 0`; `smooth_curve`
(st.py) performs no length check and passes its anchors to `np.interp`
unmodified. -/
theorem claim_C5 :
    (∀ xs anchors_x anchors_y : List ℚ,
      smooth_curve xs anchors_x anchors_y = npInterp xs anchors_x anchors_y) ∧
    (∀ xs anchors_x anchors_y : List ℚ,
      0 < min anchors_x.length anchors_y.length →
      interpolate_curve xs anchors_x anchors_y =
        npInterp xs (anchors_x.take (min anchors_x.length anchors_y.length))
          (anchors_y.take (min anchors_x.length anchors_y.length)) ∧
      (interpolate_curve xs anchors_x anchors_y).isSome) := by
  constructor
  · intro xs ax ay
    rfl
  · intro xs ax ay hm
    set m := min ax.length ay.length with hmdef
    have hmx : m ≤ ax.length := Nat.min_le_left _ _
    have hmy : m ≤ ay.length := Nat.min_le_right _ _
    have hlenx : (ax.take m).length = m := by
      rw [List.length_take]
      exact Nat.min_eq_left hmx
    have hleny : (ay.take m).length = m := by
      rw [List.length_take]
      exact Nat.min_eq_left hmy
    have hne : ax.take m ≠ [] := by
      intro hnil
      rw [hnil] at hlenx
      simp at hlenx
      omega
    by_cases h : ax.length = ay.length
    · have hmx' : m = ax.length := by omega
      have hmy' : m = ay.length := by omega
      have htx : ax.take m = ax := by rw [hmx', List.take_length]
      have hty : ay.take m = ay := by rw [hmy', List.take_length]
      constructor
      · rw [interpolate_curve, if_neg (by simp [h]), htx, hty]
      · rw [interpolate_curve, if_neg (by simp [h]), npInterp,
          if_pos ⟨h, by rw [← htx]; exact hne⟩]
        rfl
    · constructor
      · rw [interpolate_curve, if_pos h]
      · rw [interpolate_curve, if_pos h, npInterp,
          if_pos ⟨by rw [hlenx, hleny], hne⟩]
        rfl

/-- Witness for C5 at the concrete mismatched anchors `x = [0, 2, 4]`,
`y = [0, 10]`: both arrays are truncated to length 2 and interpolation
goes through `(0, 0)` and `(2, 10)`. -/
theorem claim_C5_witness :
    interpolate_curve [1, 3] [0, 2, 4] [0, 10] = npInterp [1, 3] [0, 2] [0, 10] ∧
    (interpolate_curve [1, 3] [0, 2, 4] [0, 10]).isSome ∧
    interpolate_curve [1, 3] [0, 2, 4] [0, 10] = some [5, 10] := by
  have h := claim_C5.2 [1, 3] [0, 2, 4] [0, 10] (by decide)
  refine ⟨h.1.trans rfl, h.2, h.1.trans ?_⟩
  show npInterp [1, 3] [0, 2] [0, 10] = some [5, 10]
  rw [npInterp, if_pos ⟨rfl, by decide⟩]
  norm_num [npInterpPts, interpSeg]

/-- C6: for strictly ascending anchor x-values with a y-array of equal
length, both curve helpers return the piecewise-linear interpolant at
every sample point: anchor points are reproduced exactly, values between
two consecutive anchors lie on the straight segment joining them, and
sample points outside the anchor span are clamped to the first/last
anchor y. -/
theorem claim_C6 (anchors_x anchors_y : List ℚ)
    (hlen : anchors_x.length = anchors_y.length)
    (hchain : anchors_x.Chain' (· < ·)) (hne : anchors_x ≠ []) :
    (∀ xs : List ℚ,
      smooth_curve xs anchors_x anchors_y =
        some (xs.map fun x => npInterpPts x (anchors_x.zip anchors_y)) ∧
      interpolate_curve xs anchors_x anchors_y =
        some (xs.map fun x => npInterpPts x (anchors_x.zip anchors_y))) ∧
    (∀ (i : ℕ) (a y : ℚ), anchors_x[i]? = some a → anchors_y[i]? = some y →
      npInterpPts a (anchors_x.zip anchors_y) = y) ∧
    (∀ (i : ℕ) (a b ya yb x : ℚ), anchors_x[i]? = some a →
      anchors_x[i + 1]? = some b → anchors_y[i]? = some ya →
      anchors_y[i + 1]? = some yb → a ≤ x → x ≤ b →
      npInterpPts x (anchors_x.zip anchors_y) = interpSeg x a ya b yb) ∧
    (∀ a y x : ℚ, anchors_x.head? = some a → anchors_y.head? = some y →
      x ≤ a → npInterpPts x (anchors_x.zip anchors_y) = y) ∧
    (∀ a y x : ℚ, anchors_x.getLast? = some a → anchors_y.getLast? = some y →
      a ≤ x → npInterpPts x (anchors_x.zip anchors_y) = y) := by
  have hpa : anchors_x.Pairwise (· < ·) := List.chain'_iff_pairwise.mp hchain
  have hmap : (anchors_x.zip anchors_y).map Prod.fst = anchors_x :=
    List.map_fst_zip anchors_x anchors_y (le_of_eq hlen)
  have hpz : (anchors_x.zip anchors_y).Pairwise fun p q => p.1 < q.1 := by
    rw [← hmap] at hpa
    exact List.pairwise_map.mp hpa
  refine ⟨?_, ?_, ?_, ?_, ?_⟩
  · intro xs
    constructor
    · rw [smooth_curve, npInterp, if_pos ⟨hlen, hne⟩]
    · rw [interpolate_curve, if_neg (by simp [hlen]), npInterp, if_pos ⟨hlen, hne⟩]
  · intro i a y h1 h2
    have hz : (anchors_x.zip anchors_y)[i]? = some (a, y) :=
      List.getElem?_zip_eq_some.mpr ⟨h1, h2⟩
    exact npInterpPts_anchor _ hpz i (a, y) hz
  · intro i a b ya yb x h1 h2 h3 h4 hx1 hx2
    have hz1 : (anchors_x.zip anchors_y)[i]? = some (a, ya) :=
      List.getElem?_zip_eq_some.mpr ⟨h1, h3⟩
    have hz2 : (anchors_x.zip anchors_y)[i + 1]? = some (b, yb) :=
      List.getElem?_zip_eq_some.mpr ⟨h2, h4⟩
    exact npInterpPts_segment _ hpz i (a, ya) (b, yb) hz1 hz2 x hx1 hx2
  · intro a y x h1 h2 hx
    have hz : (anchors_x.zip anchors_y).head? = some (a, y) := by
      rw [List.head?_eq_getElem?] at h1 h2 ⊢
      exact List.getElem?_zip_eq_some.mpr ⟨h1, h2⟩
    exact npInterpPts_clamp_left _ (a, y) hz x hx
  · intro a y x h1 h2 hx
    have hz : (anchors_x.zip anchors_y).getLast? = some (a, y) := by
      rw [List.getLast?_eq_getElem?] at h1 h2 ⊢
      have hzl : (anchors_x.zip anchors_y).length = anchors_x.length := by
        rw [List.length_zip, hlen, Nat.min_self]
      rw [hzl]
      refine List.getElem?_zip_eq_some.mpr ⟨h1, ?_⟩
      rw [hlen]
      exact h2
    exact npInterpPts_clamp_right _ hpz (a, y) hz x hx

/-- Witness for C6 at anchors `x = [0, 2, 4]`, `y = [1, 5, 3]`: the
interpolant hits the anchors, the midpoint of the first segment, and is
clamped beyond the span. -/
theorem claim_C6_witness :
    smooth_curve [1, 2, 5] [0, 2, 4] [1, 5, 3] = some [3, 5, 3] ∧
    npInterpPts 2 ([0, 2, 4].zip [1, 5, 3]) = 5 ∧
    npInterpPts 5 ([0, 2, 4].zip [1, 5, 3]) = 3 := by
  have h := claim_C6 [0, 2, 4] [1, 5, 3] (by decide)
    (by norm_num [List.chain'_cons]) (by decide)
  refine ⟨(h.1 [1, 2, 5]).1.trans ?_, ?_, ?_⟩
  · norm_num [npInterpPts, interpSeg]
  · exact h.2.1 1 2 5 (by decide) (by decide)
  · exact h.2.2.2.2 4 3 5 (by decide) (by decide) (by decide)

theorem strictlyAscending_iff : ∀ l : List ℚ,
    strictlyAscending l = true ↔ l.Chain' (· < ·)
  | [] => by simp [strictlyAscending]
  | [_] => by simp [strictlyAscending]
  | a :: b :: l => by
    have ih := strictlyAscending_iff (b :: l)
    simp [strictlyAscending, List.chain'_cons, ih, and_comm]

theorem paramRec_anchors_ok (l : List ParamRec)
    (h : (l.all fun p =>
      strictlyAscending p.anchors_x &&
        (p.anchors_x.length == p.anchors_y.length)) = true) :
    l.Forall fun p =>
      p.anchors_x.Chain' (· < ·) ∧ p.anchors_x.length = p.anchors_y.length := by
  rw [List.forall_iff_forall_mem]
  intro p hp
  have hb := List.all_eq_true.mp h p hp
  rw [Bool.and_eq_true] at hb
  exact ⟨(strictlyAscending_iff _).mp hb.1, by simpa using hb.2⟩

theorem file2Param_anchors_ok (l : List File2Param)
    (h : (l.all fun p =>
      strictlyAscending p.x && (p.x.length == p.y.length)) = true) :
    l.Forall fun p => p.x.Chain' (· < ·) ∧ p.x.length = p.y.length := by
  rw [List.forall_iff_forall_mem]
  intro p hp
  have hb := List.all_eq_true.mp h p hp
  rw [Bool.and_eq_true] at hb
  exact ⟨(strictlyAscending_iff _).mp hb.1, by simpa using hb.2⟩

/-- C7: in every parameter record of `PARAMS` (st.py), `PARAMS` (st2.py)
and `parameters` (escai/file2.py), the anchor x-values are strictly
ascending and the anchor x- and y-arrays have equal length. -/
theorem claim_C7 :
    ((stPARAMS ++ st2PARAMS).Forall fun p =>
      p.anchors_x.Chain' (· < ·) ∧ p.anchors_x.length = p.anchors_y.length) ∧
    (file2parameters.Forall fun p =>
      p.x.Chain' (· < ·) ∧ p.x.length = p.y.length) :=
  ⟨paramRec_anchors_ok _ (by decide), file2Param_anchors_ok _ (by decide)⟩

set_option maxRecDepth 8000 in
/-- C1: the claimed band-nesting invariant fails on the code's own data.
All three tables violate it (the `all` checks are `false`): the CRI
records of st.py, st2.py and escai/file.py have `good = (80, 100)` but
`warn = (70, 80)`, and the Uniformity record of st2.py has
`good = (0.6, 1.0)` but `warn = (0.4, 0.59)`, so `good[1] > warn[1]`.
The danger-equals-span half of the invariant does hold everywhere. -/
theorem claim_C1_theorem :
    (stPARAMS.all fun p => bandsNestedOk p.good p.warn p.danger p.xspan) = false ∧
    (st2PARAMS.all fun p => bandsNestedOk p.good p.warn p.danger p.xspan) = false ∧
    (escaiPARAMETERS.all fun p => bandsNestedOk p.good p.warn p.danger p.span) = false ∧
    (stPARAMS[1]?.map fun p => (p.title, decide (p.warn.2.val < p.good.2.val))) =
      some ("CRI (Color Rendering Index, Ra)", true) ∧
    (st2PARAMS[1]?.map fun p => (p.title, decide (p.warn.2.val < p.good.2.val))) =
      some ("CRI (Color Rendering Index, Ra)", true) ∧
    (st2PARAMS[4]?.map fun p => (p.title, decide (p.warn.2.val < p.good.2.val))) =
      some ("Uniformity (Emin / Eavg)", true) ∧
    (escaiPARAMETERS[1]?.map fun p => (p.name, decide (p.warn.2.val < p.good.2.val))) =
      some ("CRI (Color Rendering Index, Ra)", true) ∧
    (stPARAMS.all fun p => p.danger == p.xspan) = true ∧
    (st2PARAMS.all fun p => p.danger == p.xspan) = true ∧
    (escaiPARAMETERS.all fun p => p.danger == p.span) = true := by
  refine ⟨by decide, by decide, by decide, by decide, by decide, by decide, by decide,
    by decide, by decide, by decide⟩

set_option maxRecDepth 40000 in
/-- C4 counterexample: the CCT chapter of st2.py cites the uploaded
document by its local filesystem path, which is not a syntactically valid
HTTP(S) URL, so not every citation pair has a valid URL. -/
theorem claim_C4_counterexample :
    ("User uploaded study (Schools information.docx) - CCT tests at 2500K,3000K,4000K,5000K,6500K",
      INPUT_UPLOADED_DOCX) ∈ allCitationPairs ∧
    isHttpUrl INPUT_UPLOADED_DOCX = false ∧
    (allCitationPairs.all fun pr => isHttpUrl pr.2) = false := by
  decide

set_option maxRecDepth 40000 in
/-- C4 (amended): every citation pair either carries a syntactically
valid HTTP(S) URL, or involves the uploaded-document path
`/mnt/data/Schools information.docx`: exactly three st2.py pairs carry
that path in the URL slot (the CCT refs, the Flicker refs and the
master_refs entry) and exactly six further st2.py pairs have the
(title, URL) order swapped, so their title slot holds the path while
their URL slot holds descriptive text; none of these nine pairs has a
valid HTTP(S) URL, and every pair not involving the path does. -/
theorem claim_C4_amended :
    (allCitationPairs.all fun pr =>
      isHttpUrl pr.2 || pr.1 == INPUT_UPLOADED_DOCX ||
        pr.2 == INPUT_UPLOADED_DOCX) = true ∧
    (allCitationPairs.filter fun pr => pr.2 == INPUT_UPLOADED_DOCX).length = 3 ∧
    (allCitationPairs.filter fun pr => pr.1 == INPUT_UPLOADED_DOCX).length = 6 ∧
    (allCitationPairs.all fun pr =>
      !(pr.1 == INPUT_UPLOADED_DOCX || pr.2 == INPUT_UPLOADED_DOCX) ||
        !isHttpUrl pr.2) = true := by
  refine ⟨by decide, by decide, by decide, by decide⟩

/-- C9: `gaussian_peak` and `descending_curve` are total on every
non-empty input array: the normalisation denominator
`x.max() - x.min() + 1e-9` is strictly positive even when all elements
are equal, so no division by zero occurs, and `gaussian_peak`'s outputs
lie in `(0, maxy]` (for a positive `maxy` and non-zero `width`, as in
every call in the script). -/
theorem claim_C9 (x : List ℚ) (hne : x ≠ []) (center width maxy knee_frac : ℝ)
    (hw : width ≠ 0) (hm : 0 < maxy) :
    (∃ x0 x1 : ℚ, x.min? = some x0 ∧ x.max? = some x1 ∧ x0 ≤ x1 ∧
      (0 : ℝ) < (x1 : ℝ) - (x0 : ℝ) + epsNorm) ∧
    (gaussian_peak x center width maxy).isSome ∧
    (descending_curve x knee_frac).isSome ∧
    (∀ l, gaussian_peak x center width maxy = some l →
      ∀ y ∈ l, 0 < y ∧ y ≤ maxy) := by
  obtain ⟨x0, hmin⟩ : ∃ a, x.min? = some a := by
    cases h : x.min? with
    | none => exact absurd (List.min?_eq_none_iff.mp h) hne
    | some a => exact ⟨a, rfl⟩
  obtain ⟨x1, hmax⟩ : ∃ a, x.max? = some a := by
    cases h : x.max? with
    | none => exact absurd (List.max?_eq_none_iff.mp h) hne
    | some a => exact ⟨a, rfl⟩
  have hx0mem : x0 ∈ x := List.min?_mem (fun a b => min_choice a b) hmin
  have hle : x0 ≤ x1 :=
    (List.max?_le_iff (fun a b c => max_le_iff) hmax).mp le_rfl x0 hx0mem
  have hden : (0 : ℝ) < (x1 : ℝ) - (x0 : ℝ) + epsNorm := by
    have hc : (x0 : ℝ) ≤ (x1 : ℝ) := by exact_mod_cast hle
    have he : (0 : ℝ) < epsNorm := by norm_num [epsNorm]
    linarith
  refine ⟨⟨x0, x1, hmin, hmax, hle, hden⟩, ?_, ?_, ?_⟩
  · rw [gaussian_peak, hmax, hmin]
    rfl
  · rw [descending_curve, hmax, hmin]
    rfl
  · intro l hl y hy
    rw [gaussian_peak, hmax, hmin] at hl
    rw [Option.some_inj] at hl
    subst hl
    rw [List.mem_map] at hy
    obtain ⟨xi, _, rfl⟩ := hy
    constructor
    · positivity
    · have hd : (0 : ℝ) < 2 * width ^ 2 := by positivity
      have hquot : -(((xi : ℝ) - (x0 : ℝ)) /
          ((x1 : ℝ) - (x0 : ℝ) + epsNorm) - center) ^ 2 / (2 * width ^ 2) ≤ 0 :=
        div_nonpos_of_nonpos_of_nonneg (neg_nonpos.mpr (sq_nonneg _)) hd.le
      have hexp : Real.exp (-(((xi : ℝ) - (x0 : ℝ)) /
          ((x1 : ℝ) - (x0 : ℝ) + epsNorm) - center) ^ 2 / (2 * width ^ 2)) ≤ 1 :=
        Real.exp_le_one_iff.mpr hquot
      calc maxy * Real.exp _ ≤ maxy * 1 :=
            mul_le_mul_of_nonneg_left hexp hm.le
        _ = maxy := mul_one maxy

/-- Witness for C9 at the all-equal array `[2, 2]` with the script's
actual arguments (`center = 0.54`, `width = 0.18`, `maxy = 1`,
`knee_frac = 0.15`): both curve generators succeed. -/
theorem claim_C9_witness :
    (gaussian_peak [2, 2] (54 / 100) (18 / 100) 1).isSome ∧
    (descending_curve [2, 2] (15 / 100)).isSome := by
  have h := claim_C9 [2, 2] (by decide) (54 / 100) (18 / 100) 1 (15 / 100)
    (by norm_num) (by norm_num)
  exact ⟨h.2.1, h.2.2.1⟩

theorem sortedSet_chain (l : List ℕ) : (sortedSet l).Chain' (· < ·) := by
  have hs : (sortedSet l).Sorted (· ≤ ·) := List.sorted_insertionSort _ _
  have hn : (sortedSet l).Nodup :=
    (List.perm_insertionSort (· ≤ ·) l.dedup).nodup_iff.mpr (List.nodup_dedup l)
  rw [List.chain'_iff_pairwise]
  exact (hs.and hn).imp fun h => lt_of_le_of_ne h.1 h.2

/-- C10 (amended): each numeric key of `extract_key_values` is present
exactly when its pattern has at least one match in the newline-joined
text, and each present list is strictly ascending with duplicates
removed; the result is a function of the joined text alone (so a match
may span the newline boundary between adjacent paragraphs — see the
counterexample for the original per-paragraph reading). -/
theorem claim_C10_amended :
    (∀ paragraphs : List String,
      ((extract_key_values paragraphs).CCT_values.isSome ↔
        findCCT (String.intercalate "\n" paragraphs).toList ≠ []) ∧
      ((extract_key_values paragraphs).Lux_values.isSome ↔
        findLux (String.intercalate "\n" paragraphs).toList ≠ []) ∧
      ((extract_key_values paragraphs).CRI_values.isSome ↔
        (searchWordCI "cri".toList false
            (String.intercalate "\n" paragraphs).toList = true ∧
          findCRIvals (String.intercalate "\n" paragraphs).toList ≠ [])) ∧
      ((extract_key_values paragraphs).Flicker_freqs_Hz.isSome ↔
        findHz (String.intercalate "\n" paragraphs).toList ≠ [])) ∧
    (∀ (paragraphs : List String) (l : List ℕ),
      ((extract_key_values paragraphs).CCT_values = some l ∨
       (extract_key_values paragraphs).Lux_values = some l ∨
       (extract_key_values paragraphs).CRI_values = some l ∨
       (extract_key_values paragraphs).Flicker_freqs_Hz = some l) →
      l.Chain' (· < ·)) ∧
    (∀ p1 p2 : List String,
      String.intercalate "\n" p1 = String.intercalate "\n" p2 →
      extract_key_values p1 = extract_key_values p2) := by
  refine ⟨?_, ?_, ?_⟩
  · intro paragraphs
    simp only [extract_key_values, extractFromText]
    refine ⟨?_, ?_, ?_, ?_⟩
    · by_cases h : findCCT (String.intercalate "\n" paragraphs).toList = []
      · rw [if_neg (not_not_intro h)]
        simp only [Option.isSome_none, Bool.false_eq_true, false_iff]
        exact not_not_intro h
      · rw [if_pos h]
        simp only [Option.isSome_some, true_iff]
        exact h
    · by_cases h : findLux (String.intercalate "\n" paragraphs).toList = []
      · rw [if_neg (not_not_intro h)]
        simp only [Option.isSome_none, Bool.false_eq_true, false_iff]
        exact not_not_intro h
      · rw [if_pos h]
        simp only [Option.isSome_some, true_iff]
        exact h
    · by_cases hs : searchWordCI "cri".toList false
          (String.intercalate "\n" paragraphs).toList = true
      · rw [if_pos hs]
        by_cases h : findCRIvals (String.intercalate "\n" paragraphs).toList = []
        · rw [if_neg (not_not_intro h)]
          simp only [Option.isSome_none, Bool.false_eq_true, false_iff]
          exact fun hc => hc.2 h
        · rw [if_pos h]
          simp only [Option.isSome_some, true_iff]
          exact ⟨hs, h⟩
      · rw [if_neg hs]
        simp only [Option.isSome_none, Bool.false_eq_true, false_iff]
        exact fun hc => hs hc.1
    · by_cases h : findHz (String.intercalate "\n" paragraphs).toList = []
      · rw [if_neg (not_not_intro h)]
        simp only [Option.isSome_none, Bool.false_eq_true, false_iff]
        exact not_not_intro h
      · rw [if_pos h]
        simp only [Option.isSome_some, true_iff]
        exact h
  · intro paragraphs l hl
    simp only [extract_key_values, extractFromText] at hl
    have hss : ∀ m : List ℕ, sortedSet m = l → l.Chain' (· < ·) := by
      intro m hm
      rw [← hm]
      exact sortedSet_chain m
    rcases hl with h | h | h | h
    · split at h
      · exact hss _ (Option.some_inj.mp h)
      · exact Option.noConfusion h
    · split at h
      · exact hss _ (Option.some_inj.mp h)
      · exact Option.noConfusion h
    · split at h
      · split at h
        · exact hss _ (Option.some_inj.mp h)
        · exact Option.noConfusion h
      · exact Option.noConfusion h
    · split at h
      · exact hss _ (Option.some_inj.mp h)
      · exact Option.noConfusion h
  · intro p1 p2 h
    rw [extract_key_values, extract_key_values, h]

/-- C10 counterexample to the per-paragraph clause: neither "test 5000"
nor "K" matches any pattern on its own (each yields the empty result),
yet joined they produce a CCT match spanning the newline boundary. -/
theorem claim_C10_counterexample :
    extract_key_values ["test 5000"] =
      { CCT_values := none, Lux_values := none, CRI_values := none,
        Flicker_freqs_Hz := none, age_mentions := none,
        percent_changes := none } ∧
    extract_key_values ["K"] =
      { CCT_values := none, Lux_values := none, CRI_values := none,
        Flicker_freqs_Hz := none, age_mentions := none,
        percent_changes := none } ∧
    (extract_key_values ["test 5000", "K"]).CCT_values = some [5000] := by
  refine ⟨by decide, by decide, by decide⟩

/-- Witness for C10 on a concrete paragraph with three lux readings: the
key is present and its list is strictly ascending. -/
theorem claim_C10_witness :
    (extract_key_values ["tested 275 lux and 475 lux and 613 lux"]).Lux_values =
      some [275, 475, 613] ∧
    ([275, 475, 613] : List ℕ).Chain' (· < ·) :=
  ⟨by decide,
    claim_C10_amended.2.1 ["tested 275 lux and 475 lux and 613 lux"]
      [275, 475, 613] (Or.inr (Or.inl (by decide)))⟩

theorem opsBlocks_append : ∀ l1 l2 : List DocOp,
    opsBlocks (l1 ++ l2) = opsBlocks l1 ++ opsBlocks l2 := by
  intro l1 l2
  induction l1 with
  | nil => rfl
  | cons op ops ih => cases op <;> simp [opsBlocks, ih]

theorem opsSaves_append : ∀ l1 l2 : List DocOp,
    opsSaves (l1 ++ l2) = opsSaves l1 ++ opsSaves l2 := by
  intro l1 l2
  induction l1 with
  | nil => rfl
  | cons op ops ih => cases op <;> simp [opsSaves, ih]

theorem runOps_ok_of_covered (fsEx : String → Bool) :
    ∀ (ops : List DocOp) (w : List String), picsCovered ops w = true →
      runOps fsEx ops w = .ok (opsBlocks ops, opsSaves ops) := by
  intro ops
  induction ops with
  | nil => intro w _; rfl
  | cons op ops ih =>
    intro w h
    cases op with
    | addHeading t l =>
      rw [picsCovered] at h
      rw [runOps, ih w h]
      rfl
    | addPara t =>
      rw [picsCovered] at h
      rw [runOps, ih w h]
      rfl
    | addPicture p =>
      rw [picsCovered, Bool.and_eq_true] at h
      rw [runOps, if_pos (show (w.contains p || fsEx p) = true by rw [h.1]; rfl),
        ih w h.2]
      rfl
    | savefig p =>
      rw [picsCovered] at h
      rw [runOps, ih (p :: w) h]
      rfl
    | save p =>
      rw [picsCovered] at h
      rw [runOps, ih w h]
      rfl

/-- C2: with the uploaded Word document absent, st2.py still completes
document generation: `read_docx_text` returns `(None, [])`, the summary
paragraph becomes the placeholder message, the whole build succeeds and
saves the output document.  Only st2.py behaves this way: file_old.py
(the one other script that reads an externally supplied file) aborts
with an uncaught error on its missing input image. -/
theorem claim_C2 (cwd : String) (fs : FS) (h : fs INPUT_UPLOADED_DOCX = none) :
    read_docx_text fs INPUT_UPLOADED_DOCX = (none, []) ∧
    uploaded_summary fs = "No uploaded file found at: " ++ INPUT_UPLOADED_DOCX ∧
    st2Run cwd fs = .ok (opsBlocks (st2Ops cwd fs), opsSaves (st2Ops cwd fs)) ∧
    Block.para (uploaded_summary fs) ∈ opsBlocks (st2Ops cwd fs) ∧
    (st2OUT_DIR cwd ++ "/School_Lighting_Booklet_Merged.docx") ∈
      opsSaves (st2Ops cwd fs) ∧
    (∀ fs2 : FS, fs2 "mdpi_vis_comparison.png" = none →
      fileOldRun fs2 = .error "mdpi_vis_comparison.png") := by
  have h1 : read_docx_text fs INPUT_UPLOADED_DOCX = (none, []) := by
    rw [read_docx_text, h]
  have h2 : uploaded_summary fs =
      "No uploaded file found at: " ++ INPUT_UPLOADED_DOCX := by
    rw [uploaded_summary, h1]
  have hcov : picsCovered (st2Ops cwd fs) [] = true := by
    simp [st2Ops, st2ChapterOps, st2RecOps, picsCovered, h1]
  refine ⟨h1, h2, runOps_ok_of_covered _ _ _ hcov, ?_, ?_, ?_⟩
  · simp only [st2Ops]
    rw [opsBlocks_append]
    apply List.mem_append_left
    simp [opsBlocks]
  · simp [st2Ops, st2ChapterOps, st2RecOps, opsSaves_append, opsSaves, h1]
  · intro fs2 h2
    simp [fileOldRun, fileOldOps, runOps, h2, Except.map]

/-- Witness for C2 on the empty filesystem: the placeholder summary is
produced, and file_old.py's build fails on its missing input image. -/
theorem claim_C2_witness :
    read_docx_text (fun _ => none) INPUT_UPLOADED_DOCX = (none, []) ∧
    uploaded_summary (fun _ => none) =
      "No uploaded file found at: /mnt/data/Schools information.docx" ∧
    fileOldRun (fun _ => none) = .error "mdpi_vis_comparison.png" := by
  have h := claim_C2 "/root" (fun _ => none) rfl
  exact ⟨h.1, h.2.1.trans rfl, h.2.2.2.2.2 (fun _ => none) rfl⟩

/-- C3 counterexample: one run of st3.py saves nine Word documents (one
per chapter) and writes no PNG images at all, so it is not the case that
every script saves exactly one document together with chart images. -/
theorem claim_C3_counterexample :
    st3SavedDocx.length = 9 ∧ st3SavedPNGs = [] ∧ ¬ st3SavedDocx.length = 1 ∧
    intSavedPNGs = [] := by
  decide

/-- C3 (amended): st.py, st2.py and escai/file.py each save exactly one
Word document with their PNG charts in an `images` subdirectory of the
output directory; escai/file2.py saves one document with its charts in a
`graphs` subdirectory; st3.py saves nine documents and no images; int.py
saves one document and no images; escai/file_old.py and
`School/school Papers/file.py` save one document each with their PNGs
written beside the document (no images subdirectory). -/
theorem claim_C3_amended :
    (∀ cwd : String,
      (stSavedDocx cwd).length = 1 ∧
      (stSavedPNGs cwd).Forall
        (fun p => ∃ r, p = (cwd ++ "/school_lighting_booklet_output/images/") ++ r) ∧
      (st2SavedDocx cwd).length = 1 ∧
      (st2SavedPNGs cwd).Forall (fun p => ∃ r, p = (st2IMG_DIR cwd ++ "/") ++ r) ∧
      (escaiSavedDocx cwd).length = 1 ∧
      (escaiSavedPNGs cwd).Forall
        (fun p => ∃ r, p = (cwd ++ "/lighting_booklet_output/images/") ++ r)) ∧
    (file2SavedDocx.length = 1 ∧
      file2SavedPNGs.Forall (fun p => ∃ r, p = "graphs/" ++ r)) ∧
    (st3SavedDocx.length = 9 ∧ st3SavedPNGs = []) ∧
    (intSavedDocx.length = 1 ∧ intSavedPNGs = []) ∧
    (fileOldSavedDocx.length = 1 ∧
      (fileOldSavedPNGs.all fun p => p.toList.all fun c => c != '/') = true) ∧
    (papersSavedDocx.length = 1 ∧
      papersSavedPNGs.Forall (fun p => ∃ r, p = "/mnt/data/" ++ r)) := by
  refine ⟨?_, ⟨rfl, ?_⟩, ⟨rfl, rfl⟩, ⟨rfl, rfl⟩, ⟨rfl, by decide⟩, ⟨rfl, ?_⟩⟩
  · intro cwd
    refine ⟨rfl, ?_, rfl, ?_, rfl, ?_⟩
    · rw [List.forall_iff_forall_mem]
      intro p hp
      rw [stSavedPNGs, List.mem_map] at hp
      obtain ⟨a, _, rfl⟩ := hp
      exact ⟨_, rfl⟩
    · rw [List.forall_iff_forall_mem]
      intro p hp
      rw [st2SavedPNGs, List.mem_map] at hp
      obtain ⟨a, _, rfl⟩ := hp
      exact ⟨_, rfl⟩
    · rw [List.forall_iff_forall_mem]
      intro p hp
      rw [escaiSavedPNGs, List.mem_map] at hp
      obtain ⟨a, _, rfl⟩ := hp
      exact ⟨_, rfl⟩
  · rw [List.forall_iff_forall_mem]
    intro p hp
    rw [file2SavedPNGs, List.mem_map] at hp
    obtain ⟨a, _, rfl⟩ := hp
    exact ⟨_, rfl⟩
  · rw [List.forall_iff_forall_mem]
    intro p hp
    rw [papersSavedPNGs, List.mem_map] at hp
    obtain ⟨a, _, rfl⟩ := hp
    exact ⟨_, rfl⟩

/-- Witness for C3 at the concrete working directory `/w`. -/
theorem claim_C3_witness :
    (stSavedDocx "/w").length = 1 ∧ st3SavedDocx.length = 9 :=
  ⟨(claim_C3_amended.1 "/w").1, claim_C3_amended.2.2.1.1⟩

end SchoolLighting
